import Mathlib

/-!
Verification of the document-intelligence core of the renewable-energy
due-diligence tool.  The Python sources under `backend/document_processor/`
are shallowly embedded: Python floats are modelled as rationals, Python
dicts as association lists (first binding wins), exceptions as `Except`,
and the external language-model / vector-store collaborators as explicit
oracle parameters.  Lowercasing is ASCII (the keyword tables and all
inputs of interest are ASCII).
-/

namespace DD

/-! ### Basic string machinery -/

/-- Python's `in` operator on strings: substring containment. -/
def strContains (hay pat : String) : Bool :=
  hay.data.tails.any (fun t => pat.data.isPrefixOf t)

/-- Python `str.lower()` (ASCII range; the keyword tables and all inputs of
interest are ASCII).  Defined over the character list so that it reduces in
the kernel. -/
def pyLower (s : String) : String := String.mk (s.data.map Char.toLower)

/-- Python's `round` to an integer: round half to even (banker's rounding). -/
def pyRoundInt (q : ℚ) : ℤ :=
  if q - ⌊q⌋ = 1/2 then (if ⌊q⌋ % 2 = 0 then ⌊q⌋ else ⌊q⌋ + 1)
  else ⌊q + 1/2⌋

/-- Python's `round(x, 3)`. -/
def round3 (q : ℚ) : ℚ := (pyRoundInt (q * 1000) : ℚ) / 1000

/-- Python's `int()` truncation toward zero on a (rational-modelled) float. -/
def pyInt (q : ℚ) : ℤ := if 0 ≤ q then ⌊q⌋ else ⌈q⌉

/-! ### Classifier (`backend/document_processor/classifier.py`) -/

/-- `DocumentType` enum, in declaration order. -/
inductive DocumentType
  | ppa | offtake_agreement | merchant_agreement
  | land_lease | easement | development_agreement | epc_contract | corporate_documents
  | interconnection_agreement | interconnection_study | technical_specifications
  | equipment_specifications | production_data | resource_assessment
  | om_contract | equipment_warranty | service_agreement
  | environmental_assessment | environmental_permit | environmental_study
  | financial_model | audit_report | tax_document | insurance_policy
  | debt_agreement | tax_equity_documents
  | building_permit | zoning_approval | regulatory_approval
  | title_report | appraisal | phase_i_esa | unknown
deriving DecidableEq

/-- `DocumentCategory` enum. -/
inductive DocumentCategory
  | legal | technical | financial | environmental | commercial
deriving DecidableEq

open DocumentType DocumentCategory in
/-- `DOCUMENT_TYPE_TO_CATEGORY.get(doc_type, None)`: the static type → category
mapping; `UNKNOWN` is the one unmapped type. -/
def DOCUMENT_TYPE_TO_CATEGORY : DocumentType → Option DocumentCategory
  | ppa => some commercial
  | offtake_agreement => some commercial
  | merchant_agreement => some commercial
  | land_lease => some legal
  | easement => some legal
  | development_agreement => some legal
  | epc_contract => some legal
  | corporate_documents => some legal
  | interconnection_agreement => some technical
  | interconnection_study => some technical
  | technical_specifications => some technical
  | equipment_specifications => some technical
  | production_data => some technical
  | resource_assessment => some technical
  | om_contract => some technical
  | equipment_warranty => some technical
  | service_agreement => some technical
  | environmental_assessment => some environmental
  | environmental_permit => some environmental
  | environmental_study => some environmental
  | phase_i_esa => some environmental
  | financial_model => some financial
  | audit_report => some financial
  | tax_document => some financial
  | insurance_policy => some financial
  | debt_agreement => some financial
  | tax_equity_documents => some financial
  | building_permit => some legal
  | zoning_approval => some legal
  | regulatory_approval => some legal
  | title_report => some legal
  | appraisal => some financial
  | unknown => none

open DocumentType in
/-- The string value of each enum member (used by `DocumentType(doc_type_str)`). -/
def documentTypeValue : DocumentType → String
  | ppa => "ppa"
  | offtake_agreement => "offtake_agreement"
  | merchant_agreement => "merchant_agreement"
  | land_lease => "land_lease"
  | easement => "easement"
  | development_agreement => "development_agreement"
  | epc_contract => "epc_contract"
  | corporate_documents => "corporate_documents"
  | interconnection_agreement => "interconnection_agreement"
  | interconnection_study => "interconnection_study"
  | technical_specifications => "technical_specifications"
  | equipment_specifications => "equipment_specifications"
  | production_data => "production_data"
  | resource_assessment => "resource_assessment"
  | om_contract => "om_contract"
  | equipment_warranty => "equipment_warranty"
  | service_agreement => "service_agreement"
  | environmental_assessment => "environmental_assessment"
  | environmental_permit => "environmental_permit"
  | environmental_study => "environmental_study"
  | financial_model => "financial_model"
  | audit_report => "audit_report"
  | tax_document => "tax_document"
  | insurance_policy => "insurance_policy"
  | debt_agreement => "debt_agreement"
  | tax_equity_documents => "tax_equity_documents"
  | building_permit => "building_permit"
  | zoning_approval => "zoning_approval"
  | regulatory_approval => "regulatory_approval"
  | title_report => "title_report"
  | appraisal => "appraisal"
  | phase_i_esa => "phase_i_esa"
  | unknown => "unknown"

open DocumentType in
/-- All enum members in declaration order. -/
def allDocumentTypes : List DocumentType :=
  [ppa, offtake_agreement, merchant_agreement,
   land_lease, easement, development_agreement, epc_contract, corporate_documents,
   interconnection_agreement, interconnection_study, technical_specifications,
   equipment_specifications, production_data, resource_assessment,
   om_contract, equipment_warranty, service_agreement,
   environmental_assessment, environmental_permit, environmental_study,
   financial_model, audit_report, tax_document, insurance_policy,
   debt_agreement, tax_equity_documents,
   building_permit, zoning_approval, regulatory_approval,
   title_report, appraisal, phase_i_esa, unknown]

/-- `DocumentType(s)`: look a string value up in the enum, `none` = `ValueError`. -/
def documentTypeOfString (s : String) : Option DocumentType :=
  allDocumentTypes.find? (fun dt => documentTypeValue dt = s)

open DocumentType in
/-- `DocumentClassifier.CLASSIFICATION_KEYWORDS`, in declaration order. -/
def CLASSIFICATION_KEYWORDS : List (DocumentType × List String) :=
  [(ppa,
    ["power purchase agreement", "ppa", "offtaker", "renewable energy credit",
     "rec", "energy price", "$/mwh", "delivery point", "contract capacity"]),
   (interconnection_agreement,
    ["interconnection agreement", "interconnection service", "transmission provider",
     "network upgrade", "point of interconnection", "poi", "system impact study"]),
   (land_lease,
    ["land lease", "lessor", "lessee", "rental payment", "lease term",
     "real property", "premises", "lease agreement"]),
   (environmental_permit,
    ["environmental permit", "air quality permit", "water discharge permit",
     "epa", "environmental protection", "permit conditions"]),
   (equipment_warranty,
    ["warranty", "manufacturer", "defects", "warranty period",
     "performance guarantee", "warranty claim"]),
   (om_contract,
    ["operation and maintenance", "o&m", "maintenance services",
     "availability guarantee", "maintenance schedule"]),
   (financial_model,
    ["financial model", "irr", "internal rate of return", "npv",
     "cash flow", "project finance", "pro forma"]),
   (resource_assessment,
    ["resource assessment", "wind resource", "solar resource",
     "capacity factor", "p50", "p90", "energy yield"])]

/-- The `(score, matched_keywords)` accumulation loop of `classify_by_keywords`. -/
def keywordScore (combined_text filename_lower : String) (keywords : List String) :
    ℕ × ℕ :=
  keywords.foldl
    (fun acc k =>
      if strContains combined_text k then
        (acc.1 + (if strContains filename_lower k then 2 else 1), acc.2 + 1)
      else acc)
    (0, 0)

/-- The `scores` dict of `classify_by_keywords` (insertion = declaration order). -/
def keyword_scores (text filename : String) : List (DocumentType × ℚ) :=
  let text_lower := pyLower text
  let filename_lower := pyLower filename
  let combined_text := filename_lower ++ " " ++ text_lower
  CLASSIFICATION_KEYWORDS.filterMap (fun p =>
    let sm := keywordScore combined_text filename_lower p.2
    if sm.2 > 0 then
      some (p.1, min ((sm.1 : ℚ) / ((p.2.length : ℚ) * (3/2))) 1)
    else none)

/-- `DocumentClassifier.classify_by_keywords`.  `max(scores, key=scores.get)`
returns the first key attaining the maximum, which is the left fold below. -/
def classify_by_keywords (text filename : String) : DocumentType × ℚ :=
  match keyword_scores text filename with
  | [] => (DocumentType.unknown, 0)
  | x :: xs => xs.foldl (fun best y => if y.2 > best.2 then y else best) x

/-- The parsed shape of an LLM classification reply: `none` models an exception
during the call or a reply of fewer than two lines; otherwise the first line
(stripped, lowercased) and the outcome of `float()` on the second line. -/
structure LLMReplyModel where
  typeToken : String
  confParse : Option ℚ
deriving DecidableEq

/-- `DocumentClassifier.classify_with_llm`: any exception (including a failed
`float()` parse) and any unrecognized type token yield `(UNKNOWN, 0.0)`. -/
def classify_with_llm : Option LLMReplyModel → DocumentType × ℚ
  | none => (DocumentType.unknown, 0)
  | some r =>
    match r.confParse with
    | none => (DocumentType.unknown, 0)
    | some c =>
      match documentTypeOfString r.typeToken with
      | some dt => (dt, c)
      | none => (DocumentType.unknown, 0)

/-- `MIN_CLASSIFICATION_CONFIDENCE` from `api/config.py`. -/
def MIN_CLASSIFICATION_CONFIDENCE : ℚ := 3/4

/-- The `(doc_type, confidence, method)` arbitration of `classify_document`. -/
def classify_document_choice (text filename : String) (use_llm : Bool)
    (llmReply : Option LLMReplyModel) : DocumentType × ℚ × String :=
  if (classify_by_keywords text filename).2 ≥ MIN_CLASSIFICATION_CONFIDENCE then
    ((classify_by_keywords text filename).1,
      (classify_by_keywords text filename).2, "keywords")
  else if use_llm then
    if (classify_with_llm llmReply).2 > (classify_by_keywords text filename).2 then
      ((classify_with_llm llmReply).1, (classify_with_llm llmReply).2, "llm")
    else
      ((classify_by_keywords text filename).1,
        (classify_by_keywords text filename).2, "keywords")
  else
    ((classify_by_keywords text filename).1,
      (classify_by_keywords text filename).2, "keywords")

/-- First element of a candidate list attaining the maximal score (later
elements win only with a strictly greater score); defaults to
`(UNKNOWN, 0.0)` on the empty list. -/
def pickFirstMax : List (DocumentType × ℚ) → DocumentType × ℚ
  | [] => (DocumentType.unknown, 0)
  | x :: xs =>
    let r := pickFirstMax xs
    if r.2 > x.2 then r else x

/-- Candidate scores per the specification's words as amended: +2 per keyword
in the lowercased filename, +1 per keyword in the lowercased
`filename ++ " " ++ text` concatenation but not in the filename, normalized by
`len(keywords) * 1.5` capped at 1. -/
def keyword_candidates_spec (text filename : String) : List (DocumentType × ℚ) :=
  let text_lower := pyLower text
  let filename_lower := pyLower filename
  let combined_text := filename_lower ++ " " ++ text_lower
  CLASSIFICATION_KEYWORDS.filterMap (fun p =>
    if p.2.any (fun k => strContains combined_text k) then
      some (p.1, min
        (((2 * p.2.countP (fun k => strContains filename_lower k)
            + p.2.countP (fun k =>
                strContains combined_text k && !strContains filename_lower k) : ℕ) : ℚ)
          / ((p.2.length : ℚ) * (3/2))) 1)
    else none)

/-- Spec-modelled keyword classifier (amended reading): the maximal candidate
wins with ties to the first declared type; `(UNKNOWN, 0.0)` when no type has a
matching keyword. -/
def classify_by_keywords_spec (text filename : String) : DocumentType × ℚ :=
  pickFirstMax (keyword_candidates_spec text filename)

/-- Spec-modelled keyword classifier following the specification's ORIGINAL
words: +1 per keyword found only in the body text (rather than in the
filename/body concatenation).  Differs from the code when a keyword spans the
boundary between filename and body. -/
def classify_by_keywords_claimed (text filename : String) : DocumentType × ℚ :=
  let text_lower := pyLower text
  let filename_lower := pyLower filename
  pickFirstMax (CLASSIFICATION_KEYWORDS.filterMap (fun p =>
    let raw : ℕ := 2 * p.2.countP (fun k => strContains filename_lower k)
        + p.2.countP (fun k => strContains text_lower k && !strContains filename_lower k)
    if p.2.any (fun k => strContains filename_lower k || strContains text_lower k) then
      some (p.1, min ((raw : ℚ) / ((p.2.length : ℚ) * (3/2))) 1)
    else none))

/-- The result dict of `classify_document`. -/
structure ClassificationResult where
  document_type : DocumentType
  category : Option DocumentCategory
  confidence : ℚ
  classification_method : String
  requires_review : Bool
deriving DecidableEq

/-- `DocumentClassifier.classify_document`: the returned dict.  Note that
`confidence` is rounded to 3 decimals but `requires_review` compares the
unrounded value. -/
def classify_document (text filename : String) (use_llm : Bool)
    (llmReply : Option LLMReplyModel) : ClassificationResult :=
  let c := classify_document_choice text filename use_llm llmReply
  { document_type := c.1
    category := DOCUMENT_TYPE_TO_CATEGORY c.1
    confidence := round3 c.2.1
    classification_method := c.2.2
    requires_review := decide (c.2.1 < MIN_CLASSIFICATION_CONFIDENCE) }

/-! ### QA system (`backend/document_processor/qa_system.py`) -/

/-- String-valued metadata lookup, `metadata.get(key)`. -/
def metaGet (metadata : List (String × String)) (key : String) : Option String :=
  (metadata.find? (fun kv => kv.1 = key)).map (fun kv => kv.2)

/-- A Pinecone query match: a relevance score and a metadata mapping. -/
structure PineMatch where
  score : ℚ
  metadata : List (String × String)
deriving DecidableEq

/-- A chunk dict as returned by `retrieve_relevant_chunks`. -/
structure RetrievedChunk where
  text : String
  score : ℚ
  metadata : List (String × String)
deriving DecidableEq

/-- The chunk projection built from each query match. -/
def chunkOfMatch (m : PineMatch) : RetrievedChunk :=
  { text := (metaGet m.metadata "text").getD ""
    score := m.score
    metadata := m.metadata.filter (fun kv => kv.1 ≠ "text") }

/-- `DocumentQASystem.retrieve_relevant_chunks`.  The embedding call and the
vector-store query are oracles that either succeed or raise; any exception is
caught and the function returns `[]`.  When no index is configured (and no
exception occurred first) the Python function falls through and returns
`None`, modelled as `none`. -/
def retrieve_relevant_chunks (hasIndex : Bool)
    (embedOutcome : Except String Unit)
    (queryOutcome : Except String (List PineMatch)) :
    Option (List RetrievedChunk) :=
  match embedOutcome with
  | .error _ => some []
  | .ok _ =>
    if hasIndex then
      match queryOutcome with
      | .error _ => some []
      | .ok ms => some (ms.map chunkOfMatch)
    else none

/-- The metadata filter built by `answer_question`; `none` when both optional
constraints are absent/falsy (the code passes `None` in that case). -/
structure MetadataFilter where
  project_id : Option String
  document_type_in : Option (List String)
deriving DecidableEq

/-- Python truthiness of the optional `project_id` argument. -/
def optStrTruthy : Option String → Bool
  | none => false
  | some s => s ≠ ""

/-- Python truthiness of the optional `document_types` argument. -/
def optListTruthy : Option (List String) → Bool
  | none => false
  | some l => l ≠ []

/-- The `filter_metadata` construction in `answer_question`. -/
def buildFilter (project_id : Option String)
    (document_types : Option (List String)) : Option MetadataFilter :=
  if optStrTruthy project_id ∨ optListTruthy document_types then
    some
      { project_id := if optStrTruthy project_id then project_id else none
        document_type_in :=
          if optListTruthy document_types then document_types else none }
  else none

/-- One entry of the `sources` list of an answer. -/
structure SourceEntry where
  document_id : Option String
  filename : Option String
  document_type : Option String
  relevance_score : ℚ
deriving DecidableEq

/-- The result dict of `answer_question` (`question` is present only on the
successful path). -/
structure AnswerResult where
  answer : String
  sources : List SourceEntry
  confidence : ℚ
  question : Option String
deriving DecidableEq

/-- The fixed no-information answer returned when retrieval yields nothing. -/
def noInfoAnswer : AnswerResult :=
  { answer := "I don't have enough information in the data room to answer this question. Please ensure the relevant documents have been uploaded and indexed."
    sources := []
    confidence := 0
    question := none }

/-- The source entry built for a kept chunk. -/
def sourceOfChunk (c : RetrievedChunk) : SourceEntry :=
  { document_id := metaGet c.metadata "document_id"
    filename := metaGet c.metadata "filename"
    document_type := metaGet c.metadata "document_type"
    relevance_score := round3 c.score }

/-- The `[Source i: filename - type]` context block for one kept chunk. -/
def contextPart (i : ℕ) (c : RetrievedChunk) : String :=
  "[Source " ++ toString (i + 1) ++ ": "
    ++ ((metaGet c.metadata "filename").getD "Unknown") ++ " - "
    ++ ((metaGet c.metadata "document_type").getD "Unknown") ++ "]\n"
    ++ c.text ++ "\n"

/-- `DocumentQASystem.answer_question`.  `retrieve` is the outcome of the
`retrieve_relevant_chunks` call as a function of the constructed filter and
`top_k`; `llm` is the generative-model oracle (context, question) which may
raise.  The second component of the result records whether the generative
model was invoked.  An LLM exception is caught by the surrounding handler,
which returns the error text inside the answer. -/
def answer_question (question : String) (project_id : Option String)
    (document_types : Option (List String)) (max_sources : ℕ)
    (retrieve : Option MetadataFilter → ℕ → Option (List RetrievedChunk))
    (llm : String → String → Except String String) : AnswerResult × Bool :=
  match retrieve (buildFilter project_id document_types) (max_sources * 2) with
  | none => (noInfoAnswer, false)
  | some [] => (noInfoAnswer, false)
  | some (c :: cs) =>
    let kept := (c :: cs).take max_sources
    let sources := kept.map sourceOfChunk
    let context :=
      String.intercalate "\n\n" (kept.enum.map (fun ic => contextPart ic.1 ic.2))
    match llm context question with
    | .error e =>
      ({ answer := "An error occurred while processing your question: " ++ e
         sources := []
         confidence := 0
         question := none }, true)
    | .ok ans =>
      let avg : ℚ :=
        if sources ≠ [] then
          (sources.map (fun s => s.relevance_score)).sum / (sources.length : ℚ)
        else 0
      ({ answer := ans
         sources := sources
         confidence := round3 (min (avg * (12/10)) 1)
         question := some question }, true)

/-- `answer_question` composed with `retrieve_relevant_chunks` over the raw
embedding/query oracles (the call chain actually executed by the code). -/
def answer_question_run (question : String) (project_id : Option String)
    (document_types : Option (List String)) (max_sources : ℕ)
    (hasIndex : Bool) (embedOutcome : Except String Unit)
    (queryOutcome : Except String (List PineMatch))
    (llm : String → String → Except String String) : AnswerResult × Bool :=
  answer_question question project_id document_types max_sources
    (fun _ _ => retrieve_relevant_chunks hasIndex embedOutcome queryOutcome) llm

/-- `DocumentQASystem.delete_document_index`: the entire body is wrapped in
`try/except Exception`, so a vector-store failure is logged and swallowed;
the function always returns `None`. -/
def delete_document_index (hasIndex : Bool)
    (deleteOutcome : Except String Unit) : Except String Unit :=
  if hasIndex then
    match deleteOutcome with
    | .ok _ => .ok ()
    | .error _ => .ok ()
  else .ok ()

/-! ### PPA extractor (`backend/document_processor/extractors/ppa_extractor.py`)

Python values flowing through the terms dict are dynamically typed (regex
results are well-typed, but the merged LLM JSON may hold anything), so dict
values are modelled by `PyVal`.  JSON arrays are modelled only as string
lists, which is all the regex path produces. -/

inductive PyVal
  | str (s : String)
  | int (n : ℤ)
  | float (q : ℚ)
  | bool (b : Bool)
  | pynone
  | strlist (l : List String)
deriving DecidableEq

/-- Python truthiness of a `PyVal`. -/
def pyTruthy : PyVal → Bool
  | .str s => s ≠ ""
  | .int n => n ≠ 0
  | .float q => q ≠ 0
  | .bool b => b
  | .pynone => false
  | .strlist l => l ≠ []

/-- `d.get(k)` on a dict modelled as an association list (first binding wins). -/
def pyGet (d : List (String × PyVal)) (k : String) : Option PyVal :=
  (d.find? (fun kv => kv.1 = k)).map (fun kv => kv.2)

/-- `{**a, **b}`: `b` overrides `a` on key collisions.  With first-binding-wins
lookup it suffices to put the overriding bindings first. -/
def pyMerge (a b : List (String × PyVal)) : List (String × PyVal) := b ++ a

/-- Python `\s` (ASCII range). -/
def isPySpace (c : Char) : Bool :=
  c = ' ' || c.toNat = 9 || c.toNat = 10 || c.toNat = 11 || c.toNat = 12 || c.toNat = 13

/-- Case-insensitive literal match: `pat` is given lowercased; returns the
rest of the input past the match. -/
def matchCI : List Char → List Char → Option (List Char)
  | [], l => some l
  | _ :: _, [] => none
  | p :: ps, c :: cs => if c.toLower = p then matchCI ps cs else none

/-- Case-sensitive literal match. -/
def matchCS : List Char → List Char → Option (List Char)
  | [], l => some l
  | _ :: _, [] => none
  | p :: ps, c :: cs => if c = p then matchCS ps cs else none

/-- `\s*`. -/
def skipWS (l : List Char) : List Char := l.dropWhile isPySpace

/-- Greedy `\d+\.?\d*` at the head of the input: the group and the rest.
None of the regexes using this token need backtracking into it, because in
each of them the character after the group cannot be a digit or a dot. -/
def numTokSplit (l : List Char) : Option (List Char × List Char) :=
  let d1 := l.takeWhile Char.isDigit
  if d1 = [] then none
  else
    match l.dropWhile Char.isDigit with
    | '.' :: r2 => some (d1 ++ '.' :: r2.takeWhile Char.isDigit, r2.dropWhile Char.isDigit)
    | r1 => some (d1, r1)

/-- Exactly `n` digits. -/
def takeDigitsN : ℕ → List Char → Option (List Char × List Char)
  | 0, l => some ([], l)
  | n + 1, c :: cs =>
    if c.isDigit then (takeDigitsN n cs).map (fun p => (c :: p.1, p.2)) else none
  | _ + 1, [] => none

/-- Decimal digit run to a natural number. -/
def natOfDigits (l : List Char) : ℕ :=
  l.foldl (fun a c => a * 10 + (c.toNat - 48)) 0

/-- Python `float()` on a `\d+\.?\d*` group, as an exact rational. -/
def ratOfNumTok (t : List Char) : ℚ :=
  let d1 := t.takeWhile Char.isDigit
  match t.dropWhile Char.isDigit with
  | '.' :: d2 => (natOfDigits d1 : ℚ) + (natOfDigits d2 : ℚ) / ((10 : ℚ) ^ d2.length)
  | _ => (natOfDigits d1 : ℚ)

/-- Leftmost-match search: try the matcher at each position left to right. -/
def scanFirst {α : Type} (f : List Char → Option α) : List Char → Option α
  | [] => f []
  | c :: cs =>
    match f (c :: cs) with
    | some r => some r
    | none => scanFirst f cs

/-- `\$(\d+\.?\d*)\s*(?:per|/)\s*MWh` (IGNORECASE) at one position; the group. -/
def priceMatchAt : List Char → Option (List Char)
  | '$' :: r0 =>
    (numTokSplit r0).bind (fun gr =>
      let r2 := skipWS gr.2
      (match matchCI ['p', 'e', 'r'] r2 with
       | some r3 => some r3
       | none => matchCI ['/'] r2).bind (fun r3 =>
        (matchCI ['m', 'w', 'h'] (skipWS r3)).map (fun _ => gr.1)))
  | _ => none

/-- `(\d+\.?\d*)\s*(?:MW|megawatt)` (IGNORECASE) at one position; the group. -/
def capacityMatchAt (l : List Char) : Option (List Char) :=
  (numTokSplit l).bind (fun gr =>
    let r2 := skipWS gr.2
    (match matchCI ['m', 'w'] r2 with
     | some r3 => some r3
     | none => matchCI "megawatt".data r2).map (fun _ => gr.1))

/-- `(?:term of|period of|duration of)\s*(\d+)\s*years?` (IGNORECASE) at one
position; the digit group. -/
def termMatchAt (l : List Char) : Option (List Char) :=
  (match matchCI "term of".data l with
   | some r1 => some r1
   | none =>
     match matchCI "period of".data l with
     | some r1 => some r1
     | none => matchCI "duration of".data l).bind (fun r1 =>
    let r2 := skipWS r1
    let d := r2.takeWhile Char.isDigit
    if d = [] then none
    else
      (matchCI "year".data (skipWS (r2.dropWhile Char.isDigit))).map (fun _ => d))

/-- `(\d+\.?\d*)\s*%\s*(?:per year|annual|annually)` (IGNORECASE) at one
position; the group.  The `annual` alternative subsumes `annually`. -/
def escalationMatchAt (l : List Char) : Option (List Char) :=
  (numTokSplit l).bind (fun gr =>
    (matchCI ['%'] (skipWS gr.2)).bind (fun r3 =>
      let r4 := skipWS r3
      (match matchCI "per year".data r4 with
       | some r5 => some r5
       | none => matchCI "annual".data r4).map (fun _ => gr.1)))

/-- `\d{1,2}` directly followed by a required character `sep` (the coupling is
safe: `sep` is never a digit, so the regex backtracking from two digits to one
can succeed only when exactly one digit precedes `sep`). -/
def shortNumThen (sep : Char) (l : List Char) : Option (List Char × List Char) :=
  match takeDigitsN 2 l with
  | some (d, c :: r) =>
    if c = sep then some (d ++ [sep], r)
    else
      match takeDigitsN 1 l with
      | some (d1, c1 :: r1) => if c1 = sep then some (d1 ++ [sep], r1) else none
      | _ => none
  | _ =>
    match takeDigitsN 1 l with
    | some (d1, c1 :: r1) => if c1 = sep then some (d1 ++ [sep], r1) else none
    | _ => none

/-- `(\d{1,2}/\d{1,2}/\d{4})` at one position: the full match and the rest. -/
def dateSlashAt (l : List Char) : Option (List Char × List Char) :=
  (shortNumThen '/' l).bind (fun p1 =>
    (shortNumThen '/' p1.2).bind (fun p2 =>
      (takeDigitsN 4 p2.2).map (fun p3 => (p1.1 ++ p2.1 ++ p3.1, p3.2))))

/-- `(\d{4}-\d{2}-\d{2})` at one position: the full match and the rest. -/
def dateISOAt (l : List Char) : Option (List Char × List Char) :=
  (takeDigitsN 4 l).bind (fun p1 =>
    match p1.2 with
    | '-' :: r1 =>
      (takeDigitsN 2 r1).bind (fun p2 =>
        match p2.2 with
        | '-' :: r2 =>
          (takeDigitsN 2 r2).map (fun p3 =>
            (p1.1 ++ '-' :: p2.1 ++ '-' :: p3.1, p3.2))
        | _ => none)
    | _ => none)

/-- The month alternation of the third date pattern, in pattern order (no
month name is a prefix of another, so the order is immaterial). -/
def monthNames : List String :=
  ["January", "February", "March", "April", "May", "June", "July",
   "August", "September", "October", "November", "December"]

/-- `(January|...|December)\s+\d{1,2},\s+\d{4}` (IGNORECASE) at one position:
the group (the month as written in the input) and the rest.  `re.findall`
returns only the group because the pattern has exactly one. -/
def dateMonthAt (l : List Char) : Option (List Char × List Char) :=
  (monthNames.findSome? (fun m =>
    (matchCI (pyLower m).data l).map (fun r => (l.take m.length, r)))).bind
    (fun gr =>
      match gr.2 with
      | c :: _ =>
        if isPySpace c then
          (shortNumThen ',' (skipWS gr.2)).bind (fun p2 =>
            match p2.2 with
            | c2 :: _ =>
              if isPySpace c2 then
                (takeDigitsN 4 (skipWS p2.2)).map (fun p3 => (gr.1, p3.2))
              else none
            | [] => none)
        else none
      | [] => none)

/-- `re.findall` driver: leftmost, non-overlapping, resuming at each match
end.  All patterns used with it consume at least one character; the fuel is
an upper bound on the number of steps, not a semantic device. -/
def findAllAux {α : Type} (f : List Char → Option (α × List Char)) :
    ℕ → List Char → List α
  | 0, _ => []
  | _ + 1, [] => []
  | fuel + 1, c :: cs =>
    match f (c :: cs) with
    | some (a, rest) => a :: findAllAux f fuel rest
    | none => findAllAux f fuel cs

def findAll {α : Type} (f : List Char → Option (α × List Char)) (l : List Char) :
    List α :=
  findAllAux f (l.length + 1) l

/-- Case-insensitive substring containment (`pat` given lowercased). -/
def containsCI (l : List Char) (pat : String) : Bool :=
  l.tails.any (fun t => (matchCI pat.data t).isSome)

/-- The `(?:^|\s)REC(?:s|\s)` alternative of the REC-mention regex: the flag
tracks whether the current position is the string start or preceded by
whitespace. -/
def recTokenScan : Bool → List Char → Bool
  | _, [] => false
  | ok, c :: cs =>
    (ok &&
      (match matchCI ['r', 'e', 'c'] (c :: cs) with
       | some (r :: _) => r.toLower = 's' || isPySpace r
       | some [] => false
       | none => false)) ||
    recTokenScan (isPySpace c) cs

/-- `re.search(r'renewable energy credit|(?:^|\s)REC(?:s|\s)', text, IGNORECASE)`. -/
def recMention (l : List Char) : Bool :=
  containsCI l "renewable energy credit" || recTokenScan true l

/-- First occurrence of `pat` (case-insensitive); the rest past the match. -/
def findFromCI (pat : List Char) : List Char → Option (List Char)
  | [] => matchCI pat []
  | c :: cs =>
    match matchCI pat (c :: cs) with
    | some r => some r
    | none => findFromCI pat cs

/-- The patterns occur in order with no intervening newline (regex `.` does
not match a newline, and the literals contain none, so a `p1.*p2` match lies
within one line; taking the earliest occurrence of each literal is complete). -/
def inOrderCI : List (List Char) → List Char → Bool
  | [], _ => true
  | p :: ps, l =>
    match findFromCI p l with
    | some r => inOrderCI ps r
    | none => false

/-- `re.search(r'transfer.*REC|REC.*transfer|buyer.*entitled.*REC', text,
IGNORECASE)` as a truth value. -/
def recTransferSearch (l : List Char) : Bool :=
  (l.splitOn '\n').any (fun line =>
    inOrderCI ["transfer".data, "rec".data] line ||
    inOrderCI ["rec".data, "transfer".data] line ||
    inOrderCI ["buyer".data, "entitled".data, "rec".data] line)

/-- The nested REC checks of `extract_with_regex`; only ever sets `True`. -/
def rec_transfer_detected (text : String) : Bool :=
  recMention text.data && recTransferSearch text.data

/-- `[A-Za-z\s&,\.]` (ASCII). -/
def isNameClassChar (c : Char) : Bool :=
  (65 ≤ c.toNat && c.toNat ≤ 90) || (97 ≤ c.toNat && c.toNat ≤ 122) ||
    isPySpace c || c = '&' || c = ',' || c = '.'

/-- `(?:LLC|Inc|Corp|Company)` (case-sensitive), token returned. -/
def corpSuffixAt (l : List Char) : Option (List Char) :=
  if (matchCS "LLC".data l).isSome then some "LLC".data
  else if (matchCS "Inc".data l).isSome then some "Inc".data
  else if (matchCS "Corp".data l).isSome then some "Corp".data
  else if (matchCS "Company".data l).isSome then some "Company".data
  else none

/-- Greedy give-back over the maximal `[A-Za-z\s&,\.]+` run: the longest
class-part length `p ≥ 1` after which a corporate suffix matches.  The suffix
cannot straddle the end of the run (its characters are all class characters,
and the run is maximal). -/
def findCorpSuffix (run : List Char) : ℕ → Option (ℕ × List Char)
  | 0 => none
  | p + 1 =>
    match corpSuffixAt (run.drop (p + 1)) with
    | some tok => some (p + 1, tok)
    | none => findCorpSuffix run p

/-- `(?:L1|L2|L3):\s*([A-Z][A-Za-z\s&,\.]+(?:LLC|Inc|Corp|Company))`
(case-sensitive) at one position; the group. -/
def labelledPartyAt (labels : List String) (l : List Char) : Option (List Char) :=
  (labels.findSome? (fun lab => matchCS (lab.data ++ [':']) l)).bind (fun rest =>
    match skipWS rest with
    | c0 :: r2 =>
      if 65 ≤ c0.toNat && c0.toNat ≤ 90 then
        let run := r2.takeWhile isNameClassChar
        (findCorpSuffix run run.length).map (fun pt =>
          c0 :: (run.take pt.1 ++ pt.2))
      else none
    | [] => none)

/-- Python `.strip()` (ASCII whitespace). -/
def pyStrip (l : List Char) : List Char :=
  ((l.dropWhile isPySpace).reverse.dropWhile isPySpace).reverse

/-- The `energy_price` binding of `extract_with_regex`. -/
def regex_price_entry (text : String) : List (String × PyVal) :=
  match scanFirst priceMatchAt text.data with
  | some g => [("energy_price", PyVal.str ("$" ++ String.mk g ++ "/MWh"))]
  | none => []

/-- The `contract_capacity_mw` binding of `extract_with_regex`. -/
def regex_capacity_entry (text : String) : List (String × PyVal) :=
  match scanFirst capacityMatchAt text.data with
  | some g => [("contract_capacity_mw", PyVal.float (ratOfNumTok g))]
  | none => []

/-- The `delivery_term_years` binding of `extract_with_regex`. -/
def regex_term_entry (text : String) : List (String × PyVal) :=
  match scanFirst termMatchAt text.data with
  | some d => [("delivery_term_years", PyVal.int (natOfDigits d : ℤ))]
  | none => []

/-- The `extracted_dates` binding of `extract_with_regex` (first 5 dates). -/
def regex_dates_entry (text : String) : List (String × PyVal) :=
  let dates :=
    findAll dateSlashAt text.data ++ findAll dateISOAt text.data ++
      findAll dateMonthAt text.data
  if dates = [] then []
  else [("extracted_dates", PyVal.strlist ((dates.take 5).map String.mk))]

/-- The `price_escalation` binding of `extract_with_regex`. -/
def regex_escalation_entry (text : String) : List (String × PyVal) :=
  match scanFirst escalationMatchAt text.data with
  | some g => [("price_escalation", PyVal.str (String.mk g ++ "% per year"))]
  | none => []

/-- The `rec_transfer` binding of `extract_with_regex`. -/
def regex_rec_entry (text : String) : List (String × PyVal) :=
  if rec_transfer_detected text then [("rec_transfer", PyVal.bool true)] else []

/-- The `seller` binding of `extract_with_regex`. -/
def regex_seller_entry (text : String) : List (String × PyVal) :=
  match scanFirst (labelledPartyAt ["Seller", "Generator", "Developer"]) text.data with
  | some g => [("seller", PyVal.str (String.mk (pyStrip g)))]
  | none => []

/-- The `buyer` binding of `extract_with_regex`. -/
def regex_buyer_entry (text : String) : List (String × PyVal) :=
  match scanFirst (labelledPartyAt ["Buyer", "Offtaker", "Purchaser"]) text.data with
  | some g => [("buyer", PyVal.str (String.mk (pyStrip g)))]
  | none => []

/-- `PPAExtractor.extract_with_regex`, building the terms dict in source
order.  Each binding is present exactly when its regex matched. -/
def extract_with_regex (text : String) : List (String × PyVal) :=
  regex_price_entry text ++ regex_capacity_entry text ++ regex_term_entry text
    ++ regex_dates_entry text ++ regex_escalation_entry text ++ regex_rec_entry text
    ++ regex_seller_entry text ++ regex_buyer_entry text

/-- The outcome of the LLM extraction call: an exception, a reply that is not
valid JSON, or a parsed JSON object. -/
inductive LLMExtractOutcome
  | exn
  | notJson (raw : String)
  | json (d : List (String × PyVal))
deriving DecidableEq

/-- `PPAExtractor.extract_with_llm`: exceptions yield `{}`, unparseable JSON
is kept under `raw_response`. -/
def extract_with_llm : LLMExtractOutcome → List (String × PyVal)
  | .exn => []
  | .notJson raw => [("raw_response", PyVal.str raw)]
  | .json d => d

/-- Python float repr of a rational-modelled float: exact decimal expansion
with trailing zeros stripped (all floats reaching it in this model were parsed
from short decimal literals, for which this matches `repr`); integers render
with a trailing `.0`. -/
def floatRepr (q : ℚ) : String :=
  if q.den = 1 then toString q.num ++ ".0"
  else
    match (List.range 30).find? (fun k => decide ((q * (10 : ℚ) ^ (k + 1)).den = 1)) with
    | some k =>
      let k1 := k + 1
      let m := (q * (10 : ℚ) ^ k1).num
      let a := m.natAbs
      let fpStr := toString (a % 10 ^ k1)
      (if m < 0 then "-" else "") ++ toString (a / 10 ^ k1) ++ "."
        ++ String.mk (List.replicate (k1 - fpStr.length) '0') ++ fpStr
    | none => toString q

/-- Python f-string conversion of a dict value (the list case follows list
repr; it is unreachable in `identify_red_flags`, where a list value raises in
the comparison before being formatted). -/
def pyFormat : PyVal → String
  | .str s => s
  | .int n => toString n
  | .float q => floatRepr q
  | .bool b => if b then "True" else "False"
  | .pynone => "None"
  | .strlist [] => "[]"
  | .strlist (x :: xs) =>
    "['" ++ String.intercalate "', '" (x :: xs) ++ "']"

/-- Python `value < 10` on a dynamically typed value: numbers and bools
compare, strings and lists raise `TypeError`. -/
def termLt10 : PyVal → Except String Bool
  | .int n => .ok (decide (n < 10))
  | .float q => .ok (decide (q < 10))
  | .bool b => .ok (decide ((if b then (1 : ℤ) else 0) < 10))
  | .str _ => .error "TypeError: '<' not supported between instances of 'str' and 'int'"
  | .strlist _ => .error "TypeError: '<' not supported between instances of 'list' and 'int'"
  | .pynone => .error "TypeError: '<' not supported between instances of 'NoneType' and 'int'"

/-- `re.search(r'\$?(\d+\.?\d*)', s)` at one position; the group.  The
optional dollar sign does not change the group, which always starts at the
first digit. -/
def looseNumberAt : List Char → Option (List Char)
  | '$' :: r => (numTokSplit r).map (fun p => p.1)
  | l => (numTokSplit l).map (fun p => p.1)

/-- The contract-duration red-flag branch.  The code tests truthiness first
and then compares `terms['delivery_term_years'] < 10`, which raises for
string- or list-valued terms. -/
def termFlags (terms : List (String × PyVal)) : Except String (List String) :=
  match pyGet terms "delivery_term_years" with
  | some v =>
    if pyTruthy v then
      match termLt10 v with
      | .error e => .error e
      | .ok b =>
        .ok (if b then
          ["Short contract term (" ++ pyFormat v
            ++ " years) - may impact project financing"]
        else [])
    else .ok []
  | none => .ok []

/-- The pricing red-flag branch; `re.search` on a non-string raises. -/
def priceFlags (terms : List (String × PyVal)) : Except String (List String) :=
  match pyGet terms "energy_price" with
  | some v =>
    if pyTruthy v then
      match v with
      | .str s =>
        match scanFirst looseNumberAt s.data with
        | some g =>
          .ok (if ratOfNumTok g < 20 then
            ["Low energy price ($" ++ floatRepr (ratOfNumTok g)
              ++ "/MWh) - verify market conditions"]
          else [])
        | none => .ok []
      | _ => .error "TypeError: expected string or bytes-like object"
    else .ok []
  | none => .ok []

/-- The REC-transfer branch: `terms.get('rec_transfer') is False` is an
identity test against the `False` singleton and never raises. -/
def recFlags (terms : List (String × PyVal)) : List String :=
  match pyGet terms "rec_transfer" with
  | some (.bool false) => ["RECs not transferred to buyer - impacts project economics"]
  | _ => []

def critical_terms : List String :=
  ["seller", "buyer", "energy_price", "delivery_term_years",
   "commercial_operation_date", "delivery_point"]

/-- The missing-critical-terms branch (`not terms.get(term)` = not truthy). -/
def missingFlags (terms : List (String × PyVal)) : List String :=
  let missing := critical_terms.filter
    (fun t => !(pyTruthy ((pyGet terms t).getD PyVal.pynone)))
  if missing = [] then []
  else ["Missing critical terms: " ++ String.intercalate ", " missing]

/-- `PPAExtractor.identify_red_flags`.  A raised `TypeError` propagates (the
function body has no handler). -/
def identify_red_flags (terms : List (String × PyVal)) : Except String (List String) :=
  match termFlags terms with
  | .error e => .error e
  | .ok f1 =>
    match priceFlags terms with
    | .error e => .error e
    | .ok f2 => .ok (f1 ++ f2 ++ recFlags terms ++ missingFlags terms)

/-- `PPAExtractor.extract`.  The `PPATerms(**combined_terms)` construction is
wrapped in try/except and its fallback loop populates attributes without
validation, so that step never raises; the produced record is modelled as the
combined dict with `red_flags` set.  `identify_red_flags` however runs
outside any handler, so its `TypeError` propagates to the caller. -/
def extract (text : String) (use_llm : Bool) (apiKeyConfigured : Bool)
    (llmOutcome : LLMExtractOutcome) : Except String (List (String × PyVal)) :=
  let regex_terms := extract_with_regex text
  let combined_terms :=
    if use_llm && apiKeyConfigured then
      pyMerge regex_terms (extract_with_llm llmOutcome)
    else regex_terms
  match identify_red_flags combined_terms with
  | .error e => .error e
  | .ok red_flags =>
    .ok (("red_flags", PyVal.strlist red_flags) :: combined_terms)

/-! ### Summary generator (`backend/document_processor/summary_generator.py`)

Inputs are modelled as typed records mirroring the dict keys the code reads;
`Option` marks keys that may be absent (read through `.get` with defaults). -/

structure Issue where
  severity : Option String
  description : Option String
deriving DecidableEq

structure ChecklistStatus where
  completion_percentage : Option ℚ
  completed_items : Option ℕ
  total_items : Option ℕ
deriving DecidableEq

structure PPATermsIn where
  energy_price : Option String
  delivery_term_years : Option ℤ
deriving DecidableEq

structure ProjectData where
  capacity_mw : Option ℚ
  ppa_terms : Option PPATermsIn
deriving DecidableEq

/-- The metrics dict; every field optional so that partial mappings (as read
back by `.get(..., 0)` elsewhere) are representable. -/
structure MetricsDict where
  completion_percentage : Option ℚ
  documents_reviewed : Option ℕ
  total_documents_required : Option ℕ
  critical_issues : Option ℕ
  high_issues : Option ℕ
  medium_issues : Option ℕ
  total_issues : Option ℕ
  estimated_lifetime_revenue_usd : Option ℤ
  estimated_annual_revenue_usd : Option ℤ
deriving DecidableEq

def emptyMetricsDict : MetricsDict :=
  ⟨none, none, none, none, none, none, none, none, none⟩

def countSeverity (issues : List Issue) (sev : String) : ℕ :=
  (issues.filter (fun i => i.severity = some sev)).length

/-- `ExecutiveSummaryGenerator._calculate_metrics`.  Truthiness guards:
`capacity_mw` nonzero, `ppa_terms` present (an absent or empty dict is
falsy), `energy_price` a nonempty string.  `delivery_term_years` defaults to
20 when absent; the revenue estimates are `int()`-truncated. -/
def _calculate_metrics (project_data : ProjectData)
    (checklist_status : ChecklistStatus) (issues : List Issue) : MetricsDict :=
  let base : MetricsDict :=
    { completion_percentage := some (checklist_status.completion_percentage.getD 0)
      documents_reviewed := some (checklist_status.completed_items.getD 0)
      total_documents_required := some (checklist_status.total_items.getD 0)
      critical_issues := some (countSeverity issues "Critical")
      high_issues := some (countSeverity issues "High")
      medium_issues := some (countSeverity issues "Medium")
      total_issues := some issues.length
      estimated_lifetime_revenue_usd := none
      estimated_annual_revenue_usd := none }
  match project_data.capacity_mw, project_data.ppa_terms with
  | some c, some ppa =>
    if c ≠ 0 then
      match ppa.energy_price with
      | some s =>
        if s ≠ "" then
          match scanFirst looseNumberAt s.data with
          | some g =>
            let price := ratOfNumTok g
            let term : ℤ := ppa.delivery_term_years.getD 20
            let annual_energy := c * 8760 * (3/10 : ℚ)
            let annual_revenue := annual_energy * price
            let lifetime_revenue := annual_revenue * (term : ℚ)
            { base with
              estimated_lifetime_revenue_usd := some (pyInt lifetime_revenue)
              estimated_annual_revenue_usd := some (pyInt annual_revenue) }
          | none => base
        else base
      | none => base
    else base
  | _, _ => base

/-- `ExecutiveSummaryGenerator._calculate_risk_rating` (reads only the
metrics dict; the `issues` parameter is unused by the code too). -/
def _calculate_risk_rating (_issues : List Issue) (metrics : MetricsDict) : String :=
  let critical_count := metrics.critical_issues.getD 0
  let high_count := metrics.high_issues.getD 0
  let completion := metrics.completion_percentage.getD 0
  if critical_count > 3 ∨ completion < 50 then "HIGH"
  else if critical_count > 0 ∨ high_count > 5 ∨ completion < 75 then "MEDIUM"
  else if high_count > 0 ∨ completion < 90 then "MEDIUM-LOW"
  else "LOW"

/-- The risk-rating rules exactly as the specification words them, as an
ordered branch list: the first branch whose condition holds wins. -/
def risk_rating_rules (metrics : MetricsDict) : List (Bool × String) :=
  [(decide (metrics.critical_issues.getD 0 > 3)
      || decide (metrics.completion_percentage.getD 0 < 50), "HIGH"),
   (decide (metrics.critical_issues.getD 0 > 0)
      || decide (metrics.high_issues.getD 0 > 5)
      || decide (metrics.completion_percentage.getD 0 < 75), "MEDIUM"),
   (decide (metrics.high_issues.getD 0 > 0)
      || decide (metrics.completion_percentage.getD 0 < 90), "MEDIUM-LOW")]

/-- Spec-modelled risk rating: first matching branch, default LOW. -/
def risk_rating_spec (metrics : MetricsDict) : String :=
  (((risk_rating_rules metrics).find? (fun r => r.1)).map (fun r => r.2)).getD "LOW"

def deal_breaker_keywords : List String :=
  ["no interconnection agreement", "no ppa", "land lease expired",
   "no environmental permit", "title issue", "litigation", "bankruptcy",
   "force majeure", "terminated"]

/-- `ExecutiveSummaryGenerator._identify_deal_breakers`: critical issues whose
lowercased description contains a deal-breaker keyword, surfaced verbatim. -/
def _identify_deal_breakers (issues : List Issue) : List String :=
  (issues.filter (fun i => i.severity = some "Critical")).filterMap (fun i =>
    if deal_breaker_keywords.any
        (fun k => strContains (pyLower (i.description.getD "")) k) then
      i.description
    else none)

structure ActionItem where
  priority : String
  action : String
  owner : String
  deadline : String
deriving DecidableEq

/-- Python `s[:100]`. -/
def pyTake100 (s : String) : String := String.mk (s.data.take 100)

/-- `ExecutiveSummaryGenerator._generate_action_items`. -/
def _generate_action_items (checklist_status : ChecklistStatus)
    (issues : List Issue) : List ActionItem :=
  (if checklist_status.completion_percentage.getD 0 < 100 then
    [{ priority := "High", action := "Complete outstanding DD checklist items",
       owner := "Seller", deadline := "Before closing" }]
  else [])
  ++ ((issues.filter (fun i => i.severity = some "Critical")).take 3).map (fun i =>
      { priority := "Critical",
        action := "Resolve: " ++ pyTake100 (i.description.getD "N/A"),
        owner := "Seller", deadline := "Immediate" })
  ++ (if checklist_status.completion_percentage.getD 0 > 75 then
      [{ priority := "Medium", action := "Schedule technical site visit",
         owner := "Buyer", deadline := "Next 2 weeks" },
       { priority := "Medium",
         action := "Engage independent engineer for technical review",
         owner := "Buyer", deadline := "Next 2 weeks" }]
    else [])

/-- `ExecutiveSummaryGenerator._generate_recommendation`. -/
def _generate_recommendation (deal_breakers : List String) (_issues : List Issue)
    (metrics : MetricsDict) : String :=
  if deal_breakers ≠ [] then "DO NOT PROCEED - Critical deal breakers identified"
  else
    let critical_count := metrics.critical_issues.getD 0
    let completion := metrics.completion_percentage.getD 0
    if critical_count > 3 then
      "CAUTION - Multiple critical issues require resolution before proceeding"
    else if completion < 70 then
      "CONTINUE DD - Substantial information still required"
    else if completion > 90 ∧ critical_count = 0 then
      "PROCEED TO CLOSING - DD substantially complete with manageable risks"
    else "CONTINUE DD - Complete outstanding items and address identified issues"

/-- The summary dict minus `generated_at` (a wall-clock timestamp, outside
the model). -/
structure ExecutiveSummary where
  narrative : String
  metrics : MetricsDict
  deal_breakers : List String
  action_items : List ActionItem
  overall_risk_rating : String
  recommendation : String
deriving DecidableEq

/-- `ExecutiveSummaryGenerator.generate_summary`.  The narrative LLM call runs
first; its failure is re-raised (fatal) before any metric is computed.  The
`key_findings` argument only feeds the prompt text, so it does not appear. -/
def generate_summary (project_data : ProjectData)
    (checklist_status : ChecklistStatus) (issues : List Issue)
    (llmOutcome : Except String String) : Except String ExecutiveSummary :=
  match llmOutcome with
  | .error e => .error e
  | .ok narrative =>
    let metrics := _calculate_metrics project_data checklist_status issues
    let deal_breakers := _identify_deal_breakers issues
    .ok { narrative := narrative
          metrics := metrics
          deal_breakers := deal_breakers
          action_items := _generate_action_items checklist_status issues
          overall_risk_rating := _calculate_risk_rating issues metrics
          recommendation := _generate_recommendation deal_breakers issues metrics }

/-! ### Claim theorems -/

/-- The 8 types with configured keyword sets, plus UNKNOWN. -/
def keywordReachableTypes : List DocumentType :=
  [DocumentType.ppa, DocumentType.interconnection_agreement,
   DocumentType.land_lease, DocumentType.environmental_permit,
   DocumentType.equipment_warranty, DocumentType.om_contract,
   DocumentType.financial_model, DocumentType.resource_assessment,
   DocumentType.unknown]

/-- The `delivery_term_years` values on which the red-flag comparison cannot
raise: absent, falsy, or of a type comparable with `int`. -/
def termFieldOk : Option PyVal → Bool
  | Option.none => true
  | some v =>
    match v with
    | .str s => decide (s = "")
    | .strlist l => decide (l = [])
    | _ => true

/-- The `energy_price` values on which the red-flag `re.search` cannot raise:
absent, falsy, or a string. -/
def priceFieldOk : Option PyVal → Bool
  | Option.none => true
  | some v =>
    match v with
    | .str _ => true
    | .int n => decide (n = 0)
    | .float q => decide (q = 0)
    | .bool b => !b
    | .pynone => true
    | .strlist l => decide (l = [])

/-! ### Lemmas and claim theorems -/

theorem strContains_spec (hay pat : String) :
    strContains hay pat = true ↔ pat.data <:+: hay.data := by
  unfold strContains
  rw [List.any_eq_true]
  constructor
  · rintro ⟨t, ht, hp⟩
    rw [List.mem_tails] at ht
    obtain ⟨r, rfl⟩ := List.isPrefixOf_iff_prefix.mp hp
    obtain ⟨s, hs⟩ := ht
    exact ⟨s, r, by rw [← hs]; simp⟩
  · rintro ⟨s, t, h⟩
    refine ⟨pat.data ++ t, ?_, ?_⟩
    · rw [List.mem_tails]
      exact ⟨s, by rw [← h]; simp⟩
    · exact List.isPrefixOf_iff_prefix.mpr ⟨t, rfl⟩

theorem strContains_of_contains_left (a b pat : String) :
    strContains a pat = true → strContains (a ++ b) pat = true := by
  rw [strContains_spec, strContains_spec, String.data_append]
  exact fun h => h.trans (a.data.prefix_append b.data).isInfix

theorem strContains_sandwich (a s b : String) :
    strContains (a ++ s ++ b) s = true := by
  rw [strContains_spec]
  simp only [String.data_append]
  exact ⟨a.data, b.data, by simp⟩

theorem pyRoundInt_le (q : ℚ) (n : ℤ) (h : q ≤ n) : pyRoundInt q ≤ n := by
  unfold pyRoundInt
  split
  · rename_i hhalf
    have hfl : (⌊q⌋ : ℚ) = q - 1/2 := by linarith
    have : (⌊q⌋ : ℚ) + 1/2 ≤ (n : ℚ) := by linarith
    have hlt : (⌊q⌋ : ℚ) < (n : ℚ) := by linarith
    have hfn : ⌊q⌋ < n := by exact_mod_cast hlt
    split
    · omega
    · omega
  · have : q + 1/2 < (n : ℚ) + 1 := by linarith
    exact Int.floor_le_iff.mpr (by linarith)

theorem le_pyRoundInt (q : ℚ) (n : ℤ) (h : (n : ℚ) ≤ q) : n ≤ pyRoundInt q := by
  unfold pyRoundInt
  split
  · rename_i hhalf
    have hfl : (⌊q⌋ : ℚ) = q - 1/2 := by linarith
    have hlt : (n : ℚ) < (⌊q⌋ : ℚ) + 1 := by linarith
    have hfn : n ≤ ⌊q⌋ := by
      have : n < ⌊q⌋ + 1 := by exact_mod_cast hlt
      omega
    split
    · omega
    · omega
  · exact Int.le_floor.mpr (by linarith)

theorem round3_le (q : ℚ) (n : ℚ) (hn : n * 1000 = ((n * 1000 : ℚ).num : ℚ))
    (h : q ≤ n) : round3 q ≤ n := by
  unfold round3
  have h1 : q * 1000 ≤ ((n * 1000 : ℚ).num : ℚ) := by
    rw [← hn]; nlinarith
  have := pyRoundInt_le (q * 1000) (n * 1000 : ℚ).num h1
  have h2 : ((pyRoundInt (q * 1000) : ℚ)) ≤ ((n * 1000 : ℚ).num : ℚ) := by
    exact_mod_cast this
  rw [← hn] at h2
  linarith

theorem le_round3 (q : ℚ) (n : ℚ) (hn : n * 1000 = ((n * 1000 : ℚ).num : ℚ))
    (h : n ≤ q) : n ≤ round3 q := by
  unfold round3
  have h1 : ((n * 1000 : ℚ).num : ℚ) ≤ q * 1000 := by
    rw [← hn]; nlinarith
  have := le_pyRoundInt (q * 1000) (n * 1000 : ℚ).num h1
  have h2 : ((n * 1000 : ℚ).num : ℚ) ≤ ((pyRoundInt (q * 1000) : ℚ)) := by
    exact_mod_cast this
  rw [← hn] at h2
  linarith

theorem keywordScore_eq (c f : String) (kws : List String) :
    keywordScore c f kws =
      (2 * kws.countP (fun k => strContains c k && strContains f k)
         + kws.countP (fun k => strContains c k && !strContains f k),
       kws.countP (fun k => strContains c k)) := by
  suffices h : ∀ acc : ℕ × ℕ,
      kws.foldl
        (fun acc k =>
          if strContains c k then
            (acc.1 + (if strContains f k then 2 else 1), acc.2 + 1)
          else acc) acc =
      (acc.1 + (2 * kws.countP (fun k => strContains c k && strContains f k)
         + kws.countP (fun k => strContains c k && !strContains f k)),
       acc.2 + kws.countP (fun k => strContains c k)) by
    have := h (0, 0)
    simpa [keywordScore] using this
  induction kws with
  | nil => intro acc; simp
  | cons k ks ih =>
    intro acc
    simp only [List.foldl_cons, List.countP_cons]
    rw [ih]
    cases hc : strContains c k <;> cases hf : strContains f k <;>
      simp only [hc, hf, Bool.true_and, Bool.false_and, Bool.and_true, Bool.and_false,
        Bool.not_true, Bool.not_false, if_true, if_false, Prod.mk.injEq,
        Bool.false_eq_true, Bool.true_eq_false, reduceIte] <;>
      constructor <;> omega

theorem foldl_best_mem (x : DocumentType × ℚ) (xs : List (DocumentType × ℚ)) :
    xs.foldl (fun best y => if y.2 > best.2 then y else best) x ∈ x :: xs := by
  induction xs generalizing x with
  | nil => simp
  | cons y ys ih =>
    simp only [List.foldl_cons]
    rcases List.mem_cons.mp (ih (if y.2 > x.2 then y else x)) with h | h
    · rw [h]
      split
      · exact List.mem_cons_of_mem _ (List.mem_cons_self _ _)
      · exact List.mem_cons_self _ _
    · exact List.mem_cons_of_mem _ (List.mem_cons_of_mem _ h)

theorem foldl_best_eq_pick (x : DocumentType × ℚ) (xs : List (DocumentType × ℚ))
    (hx : 0 ≤ x.2) (hxs : ∀ z ∈ xs, 0 ≤ z.2) :
    xs.foldl (fun best y => if y.2 > best.2 then y else best) x =
      (if (pickFirstMax xs).2 > x.2 then pickFirstMax xs else x) := by
  induction xs generalizing x with
  | nil =>
    simp only [List.foldl_nil, pickFirstMax]
    rw [if_neg]
    simp only [not_lt]
    exact hx
  | cons y ys ih =>
    have hy : 0 ≤ y.2 := hxs y (List.mem_cons_self _ _)
    have hys : ∀ z ∈ ys, 0 ≤ z.2 := fun z hz => hxs z (List.mem_cons_of_mem _ hz)
    have hxy : 0 ≤ (if y.2 > x.2 then y else x).2 := by
      split <;> assumption
    simp only [List.foldl_cons]
    rw [ih _ hxy hys]
    have hcons : pickFirstMax (y :: ys) =
        if (pickFirstMax ys).2 > y.2 then pickFirstMax ys else y := rfl
    rw [hcons]
    by_cases h1 : y.2 > x.2
    · rw [if_pos h1]
      by_cases h2 : (pickFirstMax ys).2 > y.2
      · rw [if_pos h2, if_pos (h1.trans h2)]
      · rw [if_neg h2, if_pos h1]
    · rw [if_neg h1]
      by_cases h2 : (pickFirstMax ys).2 > y.2
      · rw [if_pos h2]
      · rw [if_neg h2]
        have h3 : ¬ (pickFirstMax ys).2 > x.2 := by
          simp only [not_lt] at h1 h2 ⊢
          linarith
        rw [if_neg h3, if_neg h1]

theorem filterMap_congr_mem {α β : Type} (f g : α → Option β) (l : List α)
    (h : ∀ a ∈ l, f a = g a) : l.filterMap f = l.filterMap g := by
  induction l with
  | nil => rfl
  | cons a l ih =>
    simp only [List.filterMap_cons, h a (List.mem_cons_self _ _),
      ih (fun b hb => h b (List.mem_cons_of_mem _ hb))]

theorem countP_congr_mem {α : Type} (p q : α → Bool) (l : List α)
    (h : ∀ a ∈ l, p a = q a) : l.countP p = l.countP q := by
  induction l with
  | nil => rfl
  | cons a l ih =>
    simp only [List.countP_cons, h a (List.mem_cons_self _ _),
      ih (fun b hb => h b (List.mem_cons_of_mem _ hb))]

theorem keyword_scores_sound (text filename : String) :
    ∀ z ∈ keyword_scores text filename, 0 ≤ z.2 ∧ z.2 ≤ 1 := by
  intro z hz
  simp only [keyword_scores, List.mem_filterMap] at hz
  obtain ⟨p, _, hp⟩ := hz
  split at hp
  · simp only [Option.some.injEq] at hp
    subst hp
    refine ⟨le_min (div_nonneg (by positivity) (by positivity)) zero_le_one, ?_⟩
    exact min_le_right _ _
  · cases hp

theorem classify_by_keywords_confidence_bounds (text filename : String) :
    0 ≤ (classify_by_keywords text filename).2 ∧
      (classify_by_keywords text filename).2 ≤ 1 := by
  have hs := keyword_scores_sound text filename
  unfold classify_by_keywords
  cases h : keyword_scores text filename with
  | nil => exact ⟨le_refl 0, zero_le_one⟩
  | cons x xs =>
    rw [h] at hs
    exact hs _ (foldl_best_mem x xs)

theorem keyword_scores_eq_spec (text filename : String) :
    keyword_scores text filename = keyword_candidates_spec text filename := by
  unfold keyword_scores keyword_candidates_spec
  apply filterMap_congr_mem
  intro p _
  rw [keywordScore_eq]
  have hfc : ∀ k, strContains (pyLower filename) k = true →
      strContains (pyLower filename ++ " " ++ pyLower text) k = true := by
    intro k hk
    exact strContains_of_contains_left _ _ _
      (strContains_of_contains_left _ _ _ hk)
  have hcount : (p.2.countP (fun k =>
        strContains (pyLower filename ++ " " ++ pyLower text) k
          && strContains (pyLower filename) k))
      = p.2.countP (fun k => strContains (pyLower filename) k) := by
    apply countP_congr_mem
    intro k _
    cases hf : strContains (pyLower filename) k with
    | false => simp
    | true => simp [hfc k hf]
  simp only [hcount]
  have hiff : (0 < List.countP (fun k =>
      strContains (pyLower filename ++ " " ++ pyLower text) k) p.2) ↔
      (p.2.any (fun k =>
        strContains (pyLower filename ++ " " ++ pyLower text) k) = true) := by
    rw [List.countP_pos_iff, List.any_eq_true]
  exact if_congr hiff rfl rfl

theorem classify_with_llm_conf_bounds (llmReply : Option LLMReplyModel)
    (h : ∀ m : LLMReplyModel, llmReply = some m →
      ∀ q : ℚ, m.confParse = some q → 0 ≤ q ∧ q ≤ 1) :
    0 ≤ (classify_with_llm llmReply).2 ∧ (classify_with_llm llmReply).2 ≤ 1 := by
  cases llmReply with
  | none => exact ⟨le_refl 0, zero_le_one⟩
  | some m =>
    cases hq : m.confParse with
    | none => simp [classify_with_llm, hq]
    | some q =>
      have hb := h m rfl q hq
      cases ht : documentTypeOfString m.typeToken with
      | none => simp [classify_with_llm, hq, ht]
      | some dt => simpa [classify_with_llm, hq, ht] using hb

theorem classify_document_choice_conf_bounds (text filename : String)
    (use_llm : Bool) (llmReply : Option LLMReplyModel)
    (h : ∀ m : LLMReplyModel, llmReply = some m →
      ∀ q : ℚ, m.confParse = some q → 0 ≤ q ∧ q ≤ 1) :
    0 ≤ (classify_document_choice text filename use_llm llmReply).2.1 ∧
      (classify_document_choice text filename use_llm llmReply).2.1 ≤ 1 := by
  have hkw := classify_by_keywords_confidence_bounds text filename
  have hlm := classify_with_llm_conf_bounds llmReply h
  unfold classify_document_choice
  split_ifs <;> first | exact hkw | exact hlm

/-- C9: `delete_document_index` never raises to the caller for any document
id: every exception from the vector-store delete is caught and logged, so the
returned value is the same whether the delete succeeded, failed, or was
skipped because no index is configured. -/
theorem delete_document_index_never_raises :
    ∀ (hasIndex : Bool) (deleteOutcome : Except String Unit),
      delete_document_index hasIndex deleteOutcome = Except.ok () := by
  intro hasIndex deleteOutcome
  cases hasIndex <;> cases deleteOutcome <;> rfl

/-- C2: when retrieval returns no chunks for the constructed metadata filter
(either Python `None` from the missing-index fall-through or an empty list),
`answer_question` returns the fixed no-information answer with empty sources
and confidence exactly 0.0, and the generative model is not invoked (the
invocation flag of the result pair is `false`). -/
theorem answer_question_no_chunks (question : String) (project_id : Option String)
    (document_types : Option (List String)) (max_sources : ℕ)
    (retrieve : Option MetadataFilter → ℕ → Option (List RetrievedChunk))
    (llm : String → String → Except String String)
    (h : retrieve (buildFilter project_id document_types) (max_sources * 2) = none ∨
      retrieve (buildFilter project_id document_types) (max_sources * 2) = some []) :
    answer_question question project_id document_types max_sources retrieve llm =
      (noInfoAnswer, false) := by
  unfold answer_question
  rcases h with h | h <;> rw [h]

/-- Witness for C2 at a concrete call with an empty retrieval result. -/
theorem answer_question_no_chunks_witness :
    answer_question "What is the PPA price?" none none 5
      (fun _ _ => some []) (fun _ _ => Except.ok "ignored") = (noInfoAnswer, false) :=
  answer_question_no_chunks _ _ _ _ _ _ (Or.inr rfl)

/-- C6: for every issues list and metrics mapping the risk rating follows the
ordered branch rules (HIGH if critical>3 or completion<50; else MEDIUM if
critical>0 or high>5 or completion<75; else MEDIUM-LOW if high>0 or
completion<90; else LOW), first matching branch winning; in particular
completion=49 with critical_issues=0 yields HIGH. -/
theorem risk_rating_branch_order :
    (∀ (issues : List Issue) (metrics : MetricsDict),
      _calculate_risk_rating issues metrics = risk_rating_spec metrics)
    ∧ _calculate_risk_rating []
        { emptyMetricsDict with
            completion_percentage := some 49, critical_issues := some 0 } = "HIGH" := by
  constructor
  · intro issues metrics
    by_cases hA : metrics.critical_issues.getD 0 > 3 <;>
    by_cases hB : metrics.completion_percentage.getD 0 < 50 <;>
    by_cases hC : metrics.critical_issues.getD 0 > 0 <;>
    by_cases hD : metrics.high_issues.getD 0 > 5 <;>
    by_cases hE : metrics.completion_percentage.getD 0 < 75 <;>
    by_cases hF : metrics.high_issues.getD 0 > 0 <;>
    by_cases hG : metrics.completion_percentage.getD 0 < 90 <;>
    simp [_calculate_risk_rating, risk_rating_spec, risk_rating_rules,
      hA, hB, hC, hD, hE, hF, hG]
  · decide

/-- C4 counterexample: with one retrieved chunk and a generative call that
raises, the answer is not the insufficient-information message; it is the
error template with the internal exception text surfaced inside it. -/
theorem answer_question_llm_error_surfaces :
    ((answer_question_run "q" none none 5 true (Except.ok ())
        (Except.ok [{ score := 1/2, metadata := [] }])
        (fun _ _ => Except.error "connection reset")).1.answer
      = "An error occurred while processing your question: connection reset")
    ∧ (answer_question_run "q" none none 5 true (Except.ok ())
        (Except.ok [{ score := 1/2, metadata := [] }])
        (fun _ _ => Except.error "connection reset")).1.answer ≠ noInfoAnswer.answer
    ∧ strContains (answer_question_run "q" none none 5 true (Except.ok ())
        (Except.ok [{ score := 1/2, metadata := [] }])
        (fun _ _ => Except.error "connection reset")).1.answer "connection reset"
      = true := by
  refine ⟨rfl, ?_, ?_⟩ <;> decide

/-- C4 (amended): embedding and vector-store failures inside retrieval are
caught and degrade to the fixed insufficient-information answer without
invoking the generative model; a failure of the generative call itself is
also caught (nothing propagates to the caller), but the returned answer is
the error template with the exception text embedded — internal details are
surfaced in that case — with empty sources and confidence 0.0. -/
theorem answer_question_failure_paths (question : String)
    (project_id : Option String) (document_types : Option (List String))
    (max_sources : ℕ) (hasIndex : Bool) (embedOutcome : Except String Unit)
    (queryOutcome : Except String (List PineMatch))
    (llm : String → String → Except String String) :
    (∀ e, embedOutcome = Except.error e →
      answer_question_run question project_id document_types max_sources hasIndex
        embedOutcome queryOutcome llm = (noInfoAnswer, false))
    ∧ (∀ e, queryOutcome = Except.error e →
      answer_question_run question project_id document_types max_sources hasIndex
        embedOutcome queryOutcome llm = (noInfoAnswer, false))
    ∧ (∀ e m ms, embedOutcome = Except.ok () → hasIndex = true →
        queryOutcome = Except.ok (m :: ms) →
        (∀ c q, llm c q = Except.error e) →
        answer_question_run question project_id document_types max_sources hasIndex
          embedOutcome queryOutcome llm =
          ({ answer := "An error occurred while processing your question: " ++ e
             sources := []
             confidence := 0
             question := none }, true)) := by
  refine ⟨?_, ?_, ?_⟩
  · intro e he
    subst he
    rfl
  · intro e he
    subst he
    cases embedOutcome with
    | error e2 => rfl
    | ok u =>
      cases u
      unfold answer_question_run answer_question retrieve_relevant_chunks
      cases hasIndex <;> simp
  · intro e m ms he hi hq hllm
    subst he hi hq
    unfold answer_question_run answer_question retrieve_relevant_chunks
    simp only [if_true, List.map_cons]
    rw [hllm]

/-- Witness for C4 at a concrete call with a failed embedding. -/
theorem answer_question_failure_paths_witness :
    answer_question_run "q" none none 5 true (Except.error "embedding service down")
      (Except.ok []) (fun _ _ => Except.ok "x") = (noInfoAnswer, false) :=
  (answer_question_failure_paths "q" none none 5 true
    (Except.error "embedding service down") (Except.ok [])
    (fun _ _ => Except.ok "x")).1 "embedding service down" rfl

/-- C1 counterexample: the claim fails on two inputs.  A parsed LLM reply with
confidence 2.0 wins against keyword confidence 0 and is stored unclamped, so
the returned confidence is outside [0,1]; and a parsed confidence of 0.7499
rounds up to a stored confidence of 0.75 while `requires_review` (computed on
the unrounded value) is true, breaking the claimed equivalence with
`confidence < 0.75`. -/
theorem classify_document_claim_counterexample :
    (¬ (0 ≤ (classify_document "" "" true
          (some { typeToken := "ppa", confParse := some 2 })).confidence ∧
        (classify_document "" "" true
          (some { typeToken := "ppa", confParse := some 2 })).confidence ≤ 1))
    ∧ ¬ ((classify_document "" "" true
          (some { typeToken := "ppa", confParse := some (7499/10000) })).requires_review
            = true ↔
        (classify_document "" "" true
          (some { typeToken := "ppa", confParse := some (7499/10000) })).confidence
          < MIN_CLASSIFICATION_CONFIDENCE) := by
  have hks : keyword_scores "" "" = [] := by decide
  have hkw : classify_by_keywords "" "" = (DocumentType.unknown, 0) := by
    unfold classify_by_keywords
    rw [hks]
  have hdts : documentTypeOfString "ppa" = some DocumentType.ppa := by decide
  have hch : ∀ q : ℚ, 0 < q →
      classify_document_choice "" "" true
        (some { typeToken := "ppa", confParse := some q }) =
        (DocumentType.ppa, q, "llm") := by
    intro q hq
    have hllm : classify_with_llm
        (some { typeToken := "ppa", confParse := some q }) =
        (DocumentType.ppa, q) := by
      simp [classify_with_llm, hdts]
    simp only [classify_document_choice, hkw, hllm]
    rw [if_neg (by norm_num [MIN_CLASSIFICATION_CONFIDENCE]), if_pos trivial,
      if_pos hq]
  have hcd : ∀ q : ℚ, 0 < q →
      classify_document "" "" true
        (some { typeToken := "ppa", confParse := some q }) =
        { document_type := DocumentType.ppa
          category := some DocumentCategory.commercial
          confidence := round3 q
          classification_method := "llm"
          requires_review := decide (q < MIN_CLASSIFICATION_CONFIDENCE) } := by
    intro q hq
    simp only [classify_document, hch q hq]
    rfl
  have hround2 : round3 2 = 2 := by
    unfold round3 pyRoundInt
    norm_num
  have hround3 : round3 (7499/10000) = 3/4 := by
    unfold round3 pyRoundInt
    norm_num
  constructor
  · rw [hcd 2 (by norm_num)]
    simp only [hround2]
    norm_num
  · rw [hcd (7499/10000) (by norm_num)]
    simp only [hround3]
    have hlt : (7499/10000 : ℚ) < MIN_CLASSIFICATION_CONFIDENCE := by
      norm_num [MIN_CLASSIFICATION_CONFIDENCE]
    simp only [hlt, MIN_CLASSIFICATION_CONFIDENCE] at *
    simp [hlt]

/-- C1 (amended): `requires_review` equals `confidence-before-rounding <
MIN_CLASSIFICATION_CONFIDENCE` for every call and method; the stored
confidence is that value rounded to 3 decimals, hence lies in [0,1] provided
any parsed LLM confidence lies in [0,1] (keyword confidences always do), and
`requires_review` still brackets the stored confidence against the 0.75
threshold (≤ on the true side, ≥ on the false side). -/
theorem classify_document_confidence_contract (text filename : String)
    (use_llm : Bool) (llmReply : Option LLMReplyModel) :
    ((classify_document text filename use_llm llmReply).requires_review =
      decide ((classify_document_choice text filename use_llm llmReply).2.1 <
        MIN_CLASSIFICATION_CONFIDENCE))
    ∧ ((∀ m : LLMReplyModel, llmReply = some m →
          ∀ q : ℚ, m.confParse = some q → 0 ≤ q ∧ q ≤ 1) →
        0 ≤ (classify_document text filename use_llm llmReply).confidence ∧
          (classify_document text filename use_llm llmReply).confidence ≤ 1)
    ∧ ((classify_document text filename use_llm llmReply).requires_review = true →
        (classify_document text filename use_llm llmReply).confidence ≤
          MIN_CLASSIFICATION_CONFIDENCE)
    ∧ ((classify_document text filename use_llm llmReply).requires_review = false →
        MIN_CLASSIFICATION_CONFIDENCE ≤
          (classify_document text filename use_llm llmReply).confidence) := by
  have h34 : (MIN_CLASSIFICATION_CONFIDENCE * 1000 : ℚ) =
      (((MIN_CLASSIFICATION_CONFIDENCE * 1000 : ℚ)).num : ℚ) := by
    norm_num [MIN_CLASSIFICATION_CONFIDENCE]
  have h0 : ((0 : ℚ) * 1000) = (((0 : ℚ) * 1000).num : ℚ) := by norm_num
  have h1 : ((1 : ℚ) * 1000) = (((1 : ℚ) * 1000).num : ℚ) := by norm_num
  refine ⟨rfl, ?_, ?_, ?_⟩
  · intro hllm
    have hb := classify_document_choice_conf_bounds text filename use_llm llmReply hllm
    exact ⟨le_round3 _ _ h0 hb.1, round3_le _ _ h1 hb.2⟩
  · intro hrr
    have hlt : (classify_document_choice text filename use_llm llmReply).2.1 <
        MIN_CLASSIFICATION_CONFIDENCE := by
      have : decide ((classify_document_choice text filename use_llm llmReply).2.1 <
          MIN_CLASSIFICATION_CONFIDENCE) = true := hrr
      exact of_decide_eq_true this
    exact round3_le _ _ h34 (le_of_lt hlt)
  · intro hrr
    have hge : MIN_CLASSIFICATION_CONFIDENCE ≤
        (classify_document_choice text filename use_llm llmReply).2.1 := by
      have : decide ((classify_document_choice text filename use_llm llmReply).2.1 <
          MIN_CLASSIFICATION_CONFIDENCE) = false := hrr
      exact not_lt.mp (of_decide_eq_false this)
    exact le_round3 _ _ h34 hge

/-- Witness for C1 at a concrete keyword-only call. -/
theorem classify_document_confidence_contract_witness :
    0 ≤ (classify_document "power purchase agreement" "ppa.pdf" false none).confidence
    ∧ (classify_document "power purchase agreement" "ppa.pdf" false none).confidence ≤ 1 :=
  (classify_document_confidence_contract "power purchase agreement" "ppa.pdf"
    false none).2.1 (fun m hm => absurd hm (by simp))

theorem keyword_scores_keys (text filename : String) :
    ∀ z ∈ keyword_scores text filename, z.1 ∈ keywordReachableTypes := by
  intro z hz
  simp only [keyword_scores, List.mem_filterMap] at hz
  obtain ⟨p, hp, hpz⟩ := hz
  split at hpz
  · simp only [Option.some.injEq] at hpz
    subst hpz
    have hk : ∀ q ∈ CLASSIFICATION_KEYWORDS, q.1 ∈ keywordReachableTypes := by decide
    exact hk p hp
  · cases hpz

/-- C10: every keyword-pass classification yields one of the 8 types with
configured keyword sets or UNKNOWN, and so does `classify_document` whenever
the reported method is `keywords`; the other taxonomy types are unreachable
by keyword classification. -/
theorem keyword_classification_type_range :
    (∀ text filename : String,
      (classify_by_keywords text filename).1 ∈ keywordReachableTypes)
    ∧ (∀ (text filename : String) (use_llm : Bool)
        (llmReply : Option LLMReplyModel),
        (classify_document text filename use_llm llmReply).classification_method
          = "keywords" →
        (classify_document text filename use_llm llmReply).document_type
          ∈ keywordReachableTypes) := by
  have h1 : ∀ text filename : String,
      (classify_by_keywords text filename).1 ∈ keywordReachableTypes := by
    intro text filename
    unfold classify_by_keywords
    cases h : keyword_scores text filename with
    | nil => decide
    | cons x xs =>
      have hmem := foldl_best_mem x xs
      rw [← h] at hmem
      exact keyword_scores_keys text filename _ hmem
  refine ⟨h1, ?_⟩
  intro text filename use_llm llmReply
  dsimp only [classify_document]
  unfold classify_document_choice
  split_ifs <;> intro hm <;> first
    | exact h1 text filename
    | simp at hm

/-- Witness for C10 with `use_llm = false` (the method is then always
`keywords`, whichever arbitration branch is taken). -/
theorem keyword_classification_type_range_witness :
    (classify_document "land lease agreement" "lease.pdf" false none).document_type
      ∈ keywordReachableTypes := by
  have hm : (classify_document "land lease agreement" "lease.pdf" false
      none).classification_method = "keywords" := by
    dsimp only [classify_document]
    unfold classify_document_choice
    split_ifs <;> first | rfl | simp_all
  exact keyword_classification_type_range.2 "land lease agreement" "lease.pdf"
    false none hm

/-- C7 (amended): the keyword pass agrees everywhere with the spec-worded
scorer in which the +1 weight goes to keywords found in the lowercased
`filename ++ " " ++ text` concatenation but not in the filename (rather than
"only in the body"): scores are normalized by `len(keywords) * 1.5` capped at
1, the maximal candidate wins with ties to the first declared type, and zero
keyword matches across all types yield `(UNKNOWN, 0.0)`. -/
theorem classify_by_keywords_spec_equivalence :
    (∀ text filename : String,
      classify_by_keywords text filename = classify_by_keywords_spec text filename)
    ∧ (∀ text filename : String,
        (∀ p ∈ CLASSIFICATION_KEYWORDS, ∀ k ∈ p.2,
          strContains (pyLower filename ++ " " ++ pyLower text) k = false) →
        classify_by_keywords text filename = (DocumentType.unknown, 0)) := by
  constructor
  · intro text filename
    unfold classify_by_keywords classify_by_keywords_spec
    rw [← keyword_scores_eq_spec]
    cases h : keyword_scores text filename with
    | nil => rfl
    | cons x xs =>
      have hs := keyword_scores_sound text filename
      rw [h] at hs
      dsimp only
      rw [foldl_best_eq_pick x xs (hs x (List.mem_cons_self _ _)).1
        (fun z hz => (hs z (List.mem_cons_of_mem _ hz)).1)]
      rfl
  · intro text filename h
    have hnil : keyword_scores text filename = [] := by
      unfold keyword_scores
      rw [List.filterMap_eq_nil_iff]
      intro p hp
      have hcount : List.countP
          (fun k => strContains (pyLower filename ++ " " ++ pyLower text) k) p.2
            = 0 :=
        List.countP_eq_zero.mpr (fun k hk => by simp [h p hp k hk])
      simp only [keywordScore_eq, hcount]
      simp
    unfold classify_by_keywords
    rw [hnil]

/-- Witness for C7 on an input with no keyword match anywhere. -/
theorem classify_by_keywords_spec_equivalence_witness :
    classify_by_keywords "zzz" "qqq" = (DocumentType.unknown, 0) :=
  classify_by_keywords_spec_equivalence.2 "zzz" "qqq" (by decide)

/-- C7 counterexample: with filename `offtaker energy` and body `price list`,
the keyword `energy price` spans the boundary of the lowercased
`filename ++ " " ++ body` concatenation: the code scores it +1 although it is
found neither in the filename nor in the body alone, so the code confidence
(2/9) differs from the value mandated by the claim as worded (4/27). -/
theorem classify_by_keywords_claimed_counterexample :
    (classify_by_keywords "price list" "offtaker energy").2 = 2/9
    ∧ (classify_by_keywords_claimed "price list" "offtaker energy").2 = 4/27
    ∧ ((2/9 : ℚ) ≠ 4/27) := by
  have e1 : keywordScore (pyLower "offtaker energy" ++ " " ++ pyLower "price list")
      (pyLower "offtaker energy")
      ["power purchase agreement", "ppa", "offtaker", "renewable energy credit",
       "rec", "energy price", "$/mwh", "delivery point", "contract capacity"]
      = (3, 2) := by decide
  have e2 : keywordScore (pyLower "offtaker energy" ++ " " ++ pyLower "price list")
      (pyLower "offtaker energy")
      ["interconnection agreement", "interconnection service", "transmission provider",
       "network upgrade", "point of interconnection", "poi", "system impact study"]
      = (0, 0) := by decide
  have e3 : keywordScore (pyLower "offtaker energy" ++ " " ++ pyLower "price list")
      (pyLower "offtaker energy")
      ["land lease", "lessor", "lessee", "rental payment", "lease term",
       "real property", "premises", "lease agreement"] = (0, 0) := by decide
  have e4 : keywordScore (pyLower "offtaker energy" ++ " " ++ pyLower "price list")
      (pyLower "offtaker energy")
      ["environmental permit", "air quality permit", "water discharge permit",
       "epa", "environmental protection", "permit conditions"] = (0, 0) := by decide
  have e5 : keywordScore (pyLower "offtaker energy" ++ " " ++ pyLower "price list")
      (pyLower "offtaker energy")
      ["warranty", "manufacturer", "defects", "warranty period",
       "performance guarantee", "warranty claim"] = (0, 0) := by decide
  have e6 : keywordScore (pyLower "offtaker energy" ++ " " ++ pyLower "price list")
      (pyLower "offtaker energy")
      ["operation and maintenance", "o&m", "maintenance services",
       "availability guarantee", "maintenance schedule"] = (0, 0) := by decide
  have e7 : keywordScore (pyLower "offtaker energy" ++ " " ++ pyLower "price list")
      (pyLower "offtaker energy")
      ["financial model", "irr", "internal rate of return", "npv",
       "cash flow", "project finance", "pro forma"] = (0, 0) := by decide
  have e8 : keywordScore (pyLower "offtaker energy" ++ " " ++ pyLower "price list")
      (pyLower "offtaker energy")
      ["resource assessment", "wind resource", "solar resource",
       "capacity factor", "p50", "p90", "energy yield"] = (0, 0) := by decide
  refine ⟨?_, ?_, by norm_num⟩
  · unfold classify_by_keywords keyword_scores CLASSIFICATION_KEYWORDS
    simp only [List.filterMap_cons, List.filterMap_nil, e1, e2, e3, e4, e5, e6, e7, e8]
    norm_num
  · have a1 : List.countP (fun k => strContains (pyLower "offtaker energy") k)
        ["power purchase agreement", "ppa", "offtaker", "renewable energy credit",
         "rec", "energy price", "$/mwh", "delivery point", "contract capacity"]
        = 1 := by decide
    have b1 : List.countP
        (fun k => strContains (pyLower "price list") k
          && !strContains (pyLower "offtaker energy") k)
        ["power purchase agreement", "ppa", "offtaker", "renewable energy credit",
         "rec", "energy price", "$/mwh", "delivery point", "contract capacity"]
        = 0 := by decide
    unfold classify_by_keywords_claimed CLASSIFICATION_KEYWORDS
    simp only [List.filterMap_cons, List.filterMap_nil, a1, b1]
    norm_num [pickFirstMax, decide_eq_true_eq]

theorem strContains_of_contains_right (a b pat : String) :
    strContains b pat = true → strContains (a ++ b) pat = true := by
  rw [strContains_spec, strContains_spec, String.data_append]
  exact fun h => h.trans (List.suffix_append a.data b.data).isInfix

theorem termFlags_ok (terms : List (String × PyVal))
    (h : termFieldOk (pyGet terms "delivery_term_years") = true) :
    ∃ f1, termFlags terms = Except.ok f1 := by
  unfold termFlags
  cases hv : pyGet terms "delivery_term_years" with
  | none => exact ⟨[], rfl⟩
  | some v =>
    rw [hv] at h
    cases v with
    | str s =>
      simp only [termFieldOk, decide_eq_true_eq] at h
      subst h
      simp [pyTruthy]
    | strlist l =>
      simp only [termFieldOk, decide_eq_true_eq] at h
      subst h
      simp [pyTruthy]
    | int n =>
      by_cases ht : pyTruthy (PyVal.int n) = true
      · simp [ht, termLt10]
      · simp only [Bool.not_eq_true] at ht
        simp [ht]
    | float q =>
      by_cases ht : pyTruthy (PyVal.float q) = true
      · simp [ht, termLt10]
      · simp only [Bool.not_eq_true] at ht
        simp [ht]
    | bool b =>
      by_cases ht : pyTruthy (PyVal.bool b) = true
      · simp [ht, termLt10]
      · simp only [Bool.not_eq_true] at ht
        simp [ht]
    | pynone => simp [pyTruthy]

theorem priceFlags_ok (terms : List (String × PyVal))
    (h : priceFieldOk (pyGet terms "energy_price") = true) :
    ∃ f2, priceFlags terms = Except.ok f2 := by
  unfold priceFlags
  cases hv : pyGet terms "energy_price" with
  | none => exact ⟨[], rfl⟩
  | some v =>
    rw [hv] at h
    cases v with
    | str s =>
      by_cases ht : pyTruthy (PyVal.str s) = true
      · simp only [ht, if_true]
        cases scanFirst looseNumberAt s.data with
        | none => exact ⟨[], rfl⟩
        | some g => exact ⟨_, rfl⟩
      · simp only [Bool.not_eq_true] at ht
        simp [ht]
    | int n =>
      simp only [priceFieldOk, decide_eq_true_eq] at h
      subst h
      simp [pyTruthy]
    | float q =>
      simp only [priceFieldOk, decide_eq_true_eq] at h
      subst h
      simp [pyTruthy]
    | bool b =>
      simp only [priceFieldOk, Bool.not_eq_true'] at h
      subst h
      simp [pyTruthy]
    | pynone => simp [pyTruthy]
    | strlist l =>
      simp only [priceFieldOk, decide_eq_true_eq] at h
      subst h
      simp [pyTruthy]

theorem identify_red_flags_ok (terms : List (String × PyVal))
    (ht : termFieldOk (pyGet terms "delivery_term_years") = true)
    (hp : priceFieldOk (pyGet terms "energy_price") = true) :
    ∃ fl, identify_red_flags terms = Except.ok fl := by
  obtain ⟨f1, h1⟩ := termFlags_ok terms ht
  obtain ⟨f2, h2⟩ := priceFlags_ok terms hp
  exact ⟨_, by unfold identify_red_flags; rw [h1, h2]⟩

/-- C8 counterexample: the truthiness test `if terms.get('delivery_term_years')`
skips the value 0, which is present and below 10, so no flag mentions it (the
only produced flag is the aggregate missing-terms one, which contains "years"
only as part of a field name and contains no "0"); and a merged mapping with
an integer-typed `energy_price` raises before any flag list is returned. -/
theorem short_term_zero_counterexample :
    identify_red_flags [("delivery_term_years", PyVal.int 0)] =
      Except.ok ["Missing critical terms: seller, buyer, energy_price, delivery_term_years, commercial_operation_date, delivery_point"]
    ∧ strContains "Missing critical terms: seller, buyer, energy_price, delivery_term_years, commercial_operation_date, delivery_point"
        (toString (0 : ℤ)) = false
    ∧ strContains "Missing critical terms: seller, buyer, energy_price, delivery_term_years, commercial_operation_date, delivery_point"
        "years" = true
    ∧ identify_red_flags
        [("delivery_term_years", PyVal.int 7), ("energy_price", PyVal.int 45)] =
        Except.error "TypeError: expected string or bytes-like object" :=
  ⟨rfl, rfl, rfl, rfl⟩

/-- C8 (amended): for every merged terms mapping whose `delivery_term_years`
is an integer that is nonzero (truthy) and strictly less than 10, and whose
`energy_price` (if present and truthy) is a string — so the price branch
cannot raise first — `identify_red_flags` succeeds and its result includes a
red flag mentioning the term value and "years". -/
theorem short_term_red_flag (terms : List (String × PyVal)) (v : ℤ)
    (hv : pyGet terms "delivery_term_years" = some (PyVal.int v))
    (hv0 : v ≠ 0) (hv10 : v < 10)
    (hp : priceFieldOk (pyGet terms "energy_price") = true) :
    ∃ flags, identify_red_flags terms = Except.ok flags ∧
      ∃ f ∈ flags, strContains f (toString v) = true ∧
        strContains f "years" = true := by
  have ht : termFlags terms = Except.ok
      ["Short contract term (" ++ toString v
        ++ " years) - may impact project financing"] := by
    unfold termFlags
    rw [hv]
    simp [pyTruthy, hv0, termLt10, hv10, pyFormat]
  obtain ⟨f2, hf2⟩ := priceFlags_ok terms hp
  refine ⟨("Short contract term (" ++ toString v
      ++ " years) - may impact project financing") ::
      (f2 ++ recFlags terms ++ missingFlags terms), ?_, ?_⟩
  · unfold identify_red_flags
    rw [ht, hf2]
    simp
  · refine ⟨_, List.mem_cons_self _ _, ?_, ?_⟩
    · exact strContains_sandwich "Short contract term (" (toString v)
        " years) - may impact project financing"
    · exact strContains_of_contains_right _
        " years) - may impact project financing" "years" (by decide)

/-- Witness for C8 at `delivery_term_years = 7`. -/
theorem short_term_red_flag_witness :
    ∃ flags, identify_red_flags [("delivery_term_years", PyVal.int 7)] =
      Except.ok flags ∧
      ∃ f ∈ flags, strContains f (toString (7 : ℤ)) = true ∧
        strContains f "years" = true :=
  short_term_red_flag [("delivery_term_years", PyVal.int 7)] 7
    (by decide) (by decide) (by decide) (by decide)

theorem pyGet_cons (a : String × PyVal) (l : List (String × PyVal)) (k : String) :
    pyGet (a :: l) k = if a.1 = k then some a.2 else pyGet l k := by
  by_cases ha : a.1 = k
  · unfold pyGet
    rw [List.find?_cons_of_pos _ (by simp [ha]), if_pos ha]
    rfl
  · unfold pyGet
    rw [List.find?_cons_of_neg _ (by simp [ha]), if_neg ha]

theorem pyGet_append_of_none (l1 l2 : List (String × PyVal)) (k : String)
    (h : pyGet l1 k = none) : pyGet (l1 ++ l2) k = pyGet l2 k := by
  induction l1 with
  | nil => rfl
  | cons a l ih =>
    rw [pyGet_cons] at h
    rw [List.cons_append, pyGet_cons]
    by_cases ha : a.1 = k
    · rw [if_pos ha] at h
      exact absurd h (by simp)
    · rw [if_neg ha] at h ⊢
      exact ih h

theorem pyGet_append_of_some (l1 l2 : List (String × PyVal)) (k : String)
    (v : PyVal) (h : pyGet l1 k = some v) : pyGet (l1 ++ l2) k = some v := by
  induction l1 with
  | nil => cases h
  | cons a l ih =>
    rw [pyGet_cons] at h
    rw [List.cons_append, pyGet_cons]
    by_cases ha : a.1 = k
    · rw [if_pos ha] at h ⊢
      exact h
    · rw [if_neg ha] at h ⊢
      exact ih h

theorem pyGet_extract_with_regex_dty (text : String) :
    pyGet (extract_with_regex text) "delivery_term_years" =
      (scanFirst termMatchAt text.data).map
        (fun d => PyVal.int (natOfDigits d)) := by
  have hP : pyGet (regex_price_entry text) "delivery_term_years" = none := by
    unfold regex_price_entry
    cases scanFirst priceMatchAt text.data <;> simp [pyGet]
  have hC : pyGet (regex_capacity_entry text) "delivery_term_years" = none := by
    unfold regex_capacity_entry
    cases scanFirst capacityMatchAt text.data <;> simp [pyGet]
  have hT : pyGet (regex_term_entry text) "delivery_term_years" =
      (scanFirst termMatchAt text.data).map
        (fun d => PyVal.int (natOfDigits d)) := by
    unfold regex_term_entry
    cases scanFirst termMatchAt text.data <;> simp [pyGet]
  have hD : pyGet (regex_dates_entry text) "delivery_term_years" = none := by
    unfold regex_dates_entry
    dsimp only
    split <;> simp [pyGet]
  have hE : pyGet (regex_escalation_entry text) "delivery_term_years" = none := by
    unfold regex_escalation_entry
    cases scanFirst escalationMatchAt text.data <;> simp [pyGet]
  have hR : pyGet (regex_rec_entry text) "delivery_term_years" = none := by
    unfold regex_rec_entry
    split <;> simp [pyGet]
  have hS : pyGet (regex_seller_entry text) "delivery_term_years" = none := by
    unfold regex_seller_entry
    cases scanFirst (labelledPartyAt ["Seller", "Generator", "Developer"]) text.data <;>
      simp [pyGet]
  have hB : pyGet (regex_buyer_entry text) "delivery_term_years" = none := by
    unfold regex_buyer_entry
    cases scanFirst (labelledPartyAt ["Buyer", "Offtaker", "Purchaser"]) text.data <;>
      simp [pyGet]
  unfold extract_with_regex
  simp only [List.append_assoc]
  rw [pyGet_append_of_none _ _ _ hP, pyGet_append_of_none _ _ _ hC]
  cases hs : scanFirst termMatchAt text.data with
  | some d =>
    have hT2 : pyGet (regex_term_entry text) "delivery_term_years" =
        some (PyVal.int (natOfDigits d)) := by
      rw [hT, hs]
      rfl
    rw [pyGet_append_of_some _ _ _ _ hT2]
    rfl
  | none =>
    rw [hs] at hT
    rw [pyGet_append_of_none _ _ _ hT, pyGet_append_of_none _ _ _ hD,
      pyGet_append_of_none _ _ _ hE, pyGet_append_of_none _ _ _ hR,
      pyGet_append_of_none _ _ _ hS, hB]
    rfl

theorem pyGet_extract_with_regex_price (text : String) :
    pyGet (extract_with_regex text) "energy_price" =
      (scanFirst priceMatchAt text.data).map
        (fun g => PyVal.str ("$" ++ String.mk g ++ "/MWh")) := by
  have hP : pyGet (regex_price_entry text) "energy_price" =
      (scanFirst priceMatchAt text.data).map
        (fun g => PyVal.str ("$" ++ String.mk g ++ "/MWh")) := by
    unfold regex_price_entry
    cases scanFirst priceMatchAt text.data <;> simp [pyGet]
  have hC : pyGet (regex_capacity_entry text) "energy_price" = none := by
    unfold regex_capacity_entry
    cases scanFirst capacityMatchAt text.data <;> simp [pyGet]
  have hT : pyGet (regex_term_entry text) "energy_price" = none := by
    unfold regex_term_entry
    cases scanFirst termMatchAt text.data <;> simp [pyGet]
  have hD : pyGet (regex_dates_entry text) "energy_price" = none := by
    unfold regex_dates_entry
    dsimp only
    split <;> simp [pyGet]
  have hE : pyGet (regex_escalation_entry text) "energy_price" = none := by
    unfold regex_escalation_entry
    cases scanFirst escalationMatchAt text.data <;> simp [pyGet]
  have hR : pyGet (regex_rec_entry text) "energy_price" = none := by
    unfold regex_rec_entry
    split <;> simp [pyGet]
  have hS : pyGet (regex_seller_entry text) "energy_price" = none := by
    unfold regex_seller_entry
    cases scanFirst (labelledPartyAt ["Seller", "Generator", "Developer"]) text.data <;>
      simp [pyGet]
  have hB : pyGet (regex_buyer_entry text) "energy_price" = none := by
    unfold regex_buyer_entry
    cases scanFirst (labelledPartyAt ["Buyer", "Offtaker", "Purchaser"]) text.data <;>
      simp [pyGet]
  unfold extract_with_regex
  simp only [List.append_assoc]
  cases hs : scanFirst priceMatchAt text.data with
  | some g =>
    have hP2 : pyGet (regex_price_entry text) "energy_price" =
        some (PyVal.str ("$" ++ String.mk g ++ "/MWh")) := by
      rw [hP, hs]
      rfl
    rw [pyGet_append_of_some _ _ _ _ hP2]
    rfl
  | none =>
    rw [hs] at hP
    rw [pyGet_append_of_none _ _ _ hP, pyGet_append_of_none _ _ _ hC,
      pyGet_append_of_none _ _ _ hT, pyGet_append_of_none _ _ _ hD,
      pyGet_append_of_none _ _ _ hE, pyGet_append_of_none _ _ _ hR,
      pyGet_append_of_none _ _ _ hS, hB]
    rfl

theorem extract_with_regex_wellTyped (text : String) :
    termFieldOk (pyGet (extract_with_regex text) "delivery_term_years") = true ∧
    priceFieldOk (pyGet (extract_with_regex text) "energy_price") = true := by
  constructor
  · rw [pyGet_extract_with_regex_dty]
    cases scanFirst termMatchAt text.data <;> rfl
  · rw [pyGet_extract_with_regex_price]
    cases scanFirst priceMatchAt text.data <;> rfl

/-- C5 counterexample: with the LLM enabled and an API key configured, a
parsed LLM JSON object whose `delivery_term_years` is a (truthy) string makes
the red-flag comparison raise a `TypeError` that `extract` does not catch:
the exception reaches the caller. -/
theorem extract_raises_on_illtyped_llm_json :
    extract "" true true
      (LLMExtractOutcome.json [("delivery_term_years", PyVal.str "ten")]) =
      Except.error "TypeError: '<' not supported between instances of 'str' and 'int'" :=
  rfl

/-- C5 (amended): `extract` never raises when the LLM path is disabled
(`use_llm` false or no API key: the regex-built mapping is always well-typed);
with the LLM path enabled it never raises provided the merged mapping's
`delivery_term_years` and `energy_price` values are of the types the red-flag
branches can handle (the regex pass guarantees this, arbitrary LLM JSON does
not). -/
theorem extract_never_raises_conditions :
    (∀ (text : String) (use_llm apiKey : Bool) (llmOut : LLMExtractOutcome),
      use_llm = false ∨ apiKey = false →
      ∃ r, extract text use_llm apiKey llmOut = Except.ok r)
    ∧ (∀ (text : String) (llmOut : LLMExtractOutcome),
        termFieldOk (pyGet (pyMerge (extract_with_regex text)
          (extract_with_llm llmOut)) "delivery_term_years") = true →
        priceFieldOk (pyGet (pyMerge (extract_with_regex text)
          (extract_with_llm llmOut)) "energy_price") = true →
        ∃ r, extract text true true llmOut = Except.ok r) := by
  constructor
  · intro text use_llm apiKey llmOut h
    have hcond : (use_llm && apiKey) = false := by
      rcases h with h | h <;> simp [h]
    obtain ⟨fl, hfl⟩ := identify_red_flags_ok (extract_with_regex text)
      (extract_with_regex_wellTyped text).1 (extract_with_regex_wellTyped text).2
    refine ⟨("red_flags", PyVal.strlist fl) :: extract_with_regex text, ?_⟩
    unfold extract
    rw [hcond]
    simp only [Bool.false_eq_true, if_false, hfl]
  · intro text llmOut ht hp
    obtain ⟨fl, hfl⟩ := identify_red_flags_ok
      (pyMerge (extract_with_regex text) (extract_with_llm llmOut)) ht hp
    refine ⟨("red_flags", PyVal.strlist fl) ::
      pyMerge (extract_with_regex text) (extract_with_llm llmOut), ?_⟩
    unfold extract
    simp only [Bool.and_self, if_true, hfl]

/-- Witness for C5 at a concrete pattern-only call. -/
theorem extract_never_raises_conditions_witness :
    ∃ r, extract "Seller: Acme Solar LLC" false false LLMExtractOutcome.exn =
      Except.ok r :=
  extract_never_raises_conditions.1 "Seller: Acme Solar LLC" false false
    LLMExtractOutcome.exn (Or.inl rfl)

/-- C3 counterexample: with capacity and a parseable PPA price present but
`delivery_term_years` absent, the metrics mapping still includes both revenue
estimates — the term silently defaults to 20 years
(`ppa.get('delivery_term_years', 20)`), so "only when ... delivery term are
all present" fails. -/
theorem metrics_revenue_without_term :
    ((_calculate_metrics
        { capacity_mw := some 100
          ppa_terms := some { energy_price := some "$45/MWh",
                              delivery_term_years := none } }
        { completion_percentage := none, completed_items := none,
          total_items := none } []).estimated_annual_revenue_usd ≠ none)
    ∧ ((_calculate_metrics
        { capacity_mw := some 100
          ppa_terms := some { energy_price := some "$45/MWh",
                              delivery_term_years := none } }
        { completion_percentage := none, completed_items := none,
          total_items := none } []).estimated_lifetime_revenue_usd ≠ none) := by
  have hscan : scanFirst looseNumberAt "$45/MWh".data = some ['4', '5'] := by
    decide
  unfold _calculate_metrics
  simp only [hscan]
  norm_num
  simp

/-- C3 (amended): the revenue estimates are present in the metrics mapping
exactly when capacity is present and nonzero, ppa_terms is present, and the
PPA price is a nonempty string in which the price regex finds a number — the
delivery term is NOT required and defaults to 20 years when absent; when
present the values are the int-truncations of
`capacity × 8760 × 0.30 × price` and of that times the term. -/
theorem metrics_revenue_characterization (pd : ProjectData)
    (cs : ChecklistStatus) (issues : List Issue) :
    (((_calculate_metrics pd cs issues).estimated_annual_revenue_usd ≠ none ∨
      (_calculate_metrics pd cs issues).estimated_lifetime_revenue_usd ≠ none)
      ↔ ∃ c ppa s g, pd.capacity_mw = some c ∧ c ≠ 0 ∧
          pd.ppa_terms = some ppa ∧ ppa.energy_price = some s ∧ s ≠ "" ∧
          scanFirst looseNumberAt s.data = some g)
    ∧ (∀ c ppa s g, pd.capacity_mw = some c → c ≠ 0 →
        pd.ppa_terms = some ppa → ppa.energy_price = some s → s ≠ "" →
        scanFirst looseNumberAt s.data = some g →
        (_calculate_metrics pd cs issues).estimated_annual_revenue_usd =
          some (pyInt (c * 8760 * (3/10) * ratOfNumTok g)) ∧
        (_calculate_metrics pd cs issues).estimated_lifetime_revenue_usd =
          some (pyInt (c * 8760 * (3/10) * ratOfNumTok g *
            ((ppa.delivery_term_years.getD 20 : ℤ) : ℚ)))) := by
  obtain ⟨cm, pt⟩ := pd
  constructor
  · rcases cm with _ | c
    · simp [_calculate_metrics]
    · rcases pt with _ | ppa
      · simp [_calculate_metrics]
      · obtain ⟨ep, dty⟩ := ppa
        by_cases hc : c = 0
        · subst hc
          simp [_calculate_metrics]
        · rcases ep with _ | s
          · simp [_calculate_metrics, hc]
          · by_cases hs : s = ""
            · subst hs
              simp [_calculate_metrics, hc]
            · cases hg : scanFirst looseNumberAt s.data with
              | none => simp [_calculate_metrics, hc, hs, hg]
              | some g => simp [_calculate_metrics, hc, hs, hg]
  · intro c ppa s g hcm hc hpt hep hs hg
    obtain ⟨rfl⟩ : cm = some c := by rw [← hcm]
    obtain ⟨rfl⟩ : pt = some ppa := by rw [← hpt]
    simp [_calculate_metrics, hc, hep, hs, hg, mul_assoc]

/-- Witness for C3 at a concrete project with all inputs present. -/
theorem metrics_revenue_characterization_witness :
    (_calculate_metrics
        { capacity_mw := some 50
          ppa_terms := some { energy_price := some "$30/MWh",
                              delivery_term_years := some 15 } }
        { completion_percentage := none, completed_items := none,
          total_items := none } []).estimated_annual_revenue_usd =
      some (pyInt ((50 : ℚ) * 8760 * (3/10) * ratOfNumTok ['3', '0'])) ∧
    (_calculate_metrics
        { capacity_mw := some 50
          ppa_terms := some { energy_price := some "$30/MWh",
                              delivery_term_years := some 15 } }
        { completion_percentage := none, completed_items := none,
          total_items := none } []).estimated_lifetime_revenue_usd =
      some (pyInt ((50 : ℚ) * 8760 * (3/10) * ratOfNumTok ['3', '0'] *
        ((((some (15 : ℤ)).getD 20 : ℤ)) : ℚ))) :=
  (metrics_revenue_characterization
    { capacity_mw := some 50
      ppa_terms := some { energy_price := some "$30/MWh",
                          delivery_term_years := some 15 } }
    { completion_percentage := none, completed_items := none,
      total_items := none } []).2 50
    { energy_price := some "$30/MWh", delivery_term_years := some 15 }
    "$30/MWh" ['3', '0'] rfl (by norm_num) rfl rfl (by decide) (by decide)

end DD
